import Mathlib

/-!
Verification of the Windows common-item-dialog FFI wrapper
(`src/backend/win_cid/file_dialog/dialog_ffi.rs`).

The wrapper is embedded shallowly: the operating system is a deterministic
oracle (`OS`) assigning to every native shell-dialog call the status code and
out-parameters it returns; the mutable world (`World`) carries the oracle, the
caller's read-only configuration and the trace of native calls made so far.
Each Rust function becomes a Lean function from a world to a world paired with
an `Except HRESULT` result, appending to the trace exactly the native calls the
source makes, in order, including the `Release` calls that Rust drop semantics
insert on the error paths of the builder functions.
-/

set_option maxHeartbeats 1000000

namespace Rfd

/-- Windows status code; negative values signal failure. -/
abbrev HRESULT := Int

/-- Modelled from the spec: a file-type filter of the caller's configuration
(`crate::dialog::Filter`, defined outside this source file): a display name and
a list of extensions. -/
structure Filter where
  name : String
  extensions : List String
 deriving DecidableEq

/-- A filesystem path; `to_str` is `none` exactly when the path is not
representable as valid Unicode. -/
inductive PathBuf where
  | unicode (s : String)
  | nonUnicode (bytes : List Nat)
 deriving DecidableEq

def PathBuf.to_str : PathBuf → Option String
  | .unicode s => some s
  | .nonUnicode _ => none

/-- Modelled from the spec: the caller's configuration value
(`crate::FileDialog`, defined outside this source file): filters, starting
directory, default file name, title, optional parent window handle. -/
structure FileDialog where
  filters : List Filter
  starting_directory : Option PathBuf
  file_name : Option String
  title : Option String
  parent : Option Nat
 deriving DecidableEq

/-- Which dialog COM class is instantiated (`CLSID_FileOpenDialog` /
`CLSID_FileSaveDialog`). -/
inductive DialogClass where
  | openDlg
  | saveDlg
 deriving DecidableEq

/-- A wide-character buffer returned by `GetDisplayName`: an allocation
identity and the path its NUL-terminated contents decode to. -/
structure WideBuf where
  id : Nat
  content : PathBuf
 deriving DecidableEq

/-- One native shell-dialog call as it happened: its arguments, the status code
the OS returned (when the API returns one), and relevant out-parameters.
`release` and `coTaskMemFree` return no status code. -/
inductive NCall where
  | coCreateInstance (cls : DialogClass) (hr : HRESULT)
  | setDefaultExtension (ext : String) (hr : HRESULT)
  | setFileTypes (specs : List (String × String)) (hr : HRESULT)
  | shCreateItemFromParsingName (path : String) (hr : HRESULT)
  | setFolder (item : Nat) (hr : HRESULT)
  | setDefaultFolder (item : Nat) (hr : HRESULT)
  | setFileName (name : String) (hr : HRESULT)
  | setTitle (t : String) (hr : HRESULT)
  | setOptions (opts : Nat) (hr : HRESULT)
  | showDialog (parent : Option Nat) (hr : HRESULT)
  | getResultsCall (hr : HRESULT)
  | getCountCall (arr : Nat) (hr : HRESULT) (count : Nat)
  | getItemAtCall (arr : Nat) (idx : Nat) (hr : HRESULT)
  | getDisplayNameCall (item : Nat) (hr : HRESULT) (buf : Option Nat)
  | coTaskMemFree (buf : Nat)
  | release (handle : Nat)
  | getResultCall (hr : HRESULT)
 deriving DecidableEq

/-- The status code a recorded native call returned, if the API returns one. -/
def NCall.status : NCall → Option HRESULT
  | .coCreateInstance _ hr => some hr
  | .setDefaultExtension _ hr => some hr
  | .setFileTypes _ hr => some hr
  | .shCreateItemFromParsingName _ hr => some hr
  | .setFolder _ hr => some hr
  | .setDefaultFolder _ hr => some hr
  | .setFileName _ hr => some hr
  | .setTitle _ hr => some hr
  | .setOptions _ hr => some hr
  | .showDialog _ hr => some hr
  | .getResultsCall hr => some hr
  | .getCountCall _ hr _ => some hr
  | .getItemAtCall _ _ hr => some hr
  | .getDisplayNameCall _ hr _ => some hr
  | .coTaskMemFree _ => none
  | .release _ => none
  | .getResultCall hr => some hr

def NCall.isGetCount : NCall → Bool
  | .getCountCall _ _ _ => true
  | _ => false

def NCall.isSetFileTypes : NCall → Bool
  | .setFileTypes _ _ => true
  | _ => false

def NCall.isSetDefaultExt : NCall → Bool
  | .setDefaultExtension _ _ => true
  | _ => false

def NCall.isSetDefaultFolder : NCall → Bool
  | .setDefaultFolder _ _ => true
  | _ => false

def NCall.isSetFileName : NCall → Bool
  | .setFileName _ _ => true
  | _ => false

/-- The operating system, as a deterministic oracle: for each native call, the
status code it returns and its out-parameters. -/
structure OS where
  coCreate : DialogClass → HRESULT × Nat
  hrSetDefaultExtension : String → HRESULT
  hrSetFileTypes : List (String × String) → HRESULT
  shCreateItem : String → HRESULT × Nat
  hrSetFolder : Nat → HRESULT
  hrSetFileName : String → HRESULT
  hrSetTitle : String → HRESULT
  hrSetOptions : Nat → HRESULT
  hrShow : Option Nat → HRESULT
  getResultsResp : HRESULT × Nat
  getCountResp : Nat → HRESULT × Nat
  getItemAtResp : Nat → Nat → HRESULT × Nat
  getDisplayNameResp : Nat → HRESULT × WideBuf
  getResultResp : HRESULT × Nat

/-- The world an operation runs in: the OS oracle, the caller's configuration
(taken by shared reference in the source) and the trace of native calls made. -/
structure World where
  os : OS
  config : FileDialog
  trace : List NCall

/-- A fresh world with an empty call trace. -/
def World.init (os : OS) (cfg : FileDialog) : World :=
  { os := os, config := cfg, trace := [] }

/-- Record one native call. -/
def emit (w : World) (c : NCall) : World :=
  { w with trace := w.trace ++ [c] }

/-- Modelled from the spec: the status-checking helper (`ToResult::check` from
`win_cid/utils`, outside this source file). Per the spec every native call can
fail with an OS status code and failures are propagated immediately to the
caller as that code; a Windows HRESULT signals failure when negative. -/
def check (hr : HRESULT) : Except HRESULT Unit :=
  if hr < 0 then .error hr else .ok ()

/-- The wrapper around the native dialog handle (`IDialog`): the raw interface
pointer and the optional parent window handle captured from the configuration. -/
structure IDialog where
  handle : Nat
  parent : Option Nat
 deriving DecidableEq

def FOS_PICKFOLDERS : Nat := 32

def FOS_ALLOWMULTISELECT : Nat := 512

/-- `IDialog::new_file_dialog`: `CoCreateInstance` and propagate its status. -/
def new_file_dialog (w : World) (cls : DialogClass) : World × Except HRESULT Nat :=
  let r := w.os.coCreate cls
  let w1 := emit w (.coCreateInstance cls r.1)
  match check r.1 with
  | .error e => (w1, .error e)
  | .ok _ => (w1, .ok r.2)

/-- `IDialog::new_open_dialog`: create the open-dialog class and capture the
configuration's parent window handle. -/
def new_open_dialog (w : World) : World × Except HRESULT IDialog :=
  match new_file_dialog w .openDlg with
  | (w1, .error e) => (w1, .error e)
  | (w1, .ok ptr) => (w1, .ok { handle := ptr, parent := w.config.parent })

/-- `IDialog::new_save_dialog`: create the save-dialog class and capture the
configuration's parent window handle. -/
def new_save_dialog (w : World) : World × Except HRESULT IDialog :=
  match new_file_dialog w .saveDlg with
  | (w1, .error e) => (w1, .error e)
  | (w1, .ok ptr) => (w1, .ok { handle := ptr, parent := w.config.parent })

/-- The `COMDLG_FILTERSPEC` built for one filter: its name, and its extensions
each rendered `*.ext` and joined with `;`. -/
def filterSpec (f : Filter) : String × String :=
  (f.name, String.intercalate ";" (f.extensions.map (fun item => "*." ++ item)))

/-- `IDialog::add_filters`: if the first filter has a first extension, set it
as default extension; then, if the spec list is non-empty, register the filter
specs with `SetFileTypes`. -/
def add_filters (w : World) (filters : List Filter) : World × Except HRESULT Unit :=
  let step1 : World × Except HRESULT Unit :=
    match filters.head? with
    | some first_filter =>
      match first_filter.extensions.head? with
      | some first_extension =>
        let hr := w.os.hrSetDefaultExtension first_extension
        (emit w (.setDefaultExtension first_extension hr), check hr)
      | none => (w, .ok ())
    | none => (w, .ok ())
  match step1 with
  | (w1, .error e) => (w1, .error e)
  | (w1, .ok _) =>
    let spec := filters.map filterSpec
    if spec.isEmpty then (w1, .ok ())
    else
      let hr := w1.os.hrSetFileTypes spec
      (emit w1 (.setFileTypes spec hr), check hr)

/-- `IDialog::set_path`: when a starting directory is configured and is valid
Unicode, create a shell item from it and pass it to `SetFolder`; otherwise do
nothing. -/
def set_path (w : World) (path : Option PathBuf) : World × Except HRESULT Unit :=
  match path with
  | some p =>
    match p.to_str with
    | some s =>
      let r := w.os.shCreateItem s
      let w1 := emit w (.shCreateItemFromParsingName s r.1)
      match check r.1 with
      | .error e => (w1, .error e)
      | .ok _ =>
        let hr2 := w1.os.hrSetFolder r.2
        (emit w1 (.setFolder r.2 hr2), check hr2)
    | none => (w, .ok ())
  | none => (w, .ok ())

/-- `IDialog::set_file_name`: when a file name is configured, pass it to
`SetFileName`. -/
def set_file_name (w : World) (file_name : Option String) : World × Except HRESULT Unit :=
  match file_name with
  | some path =>
    let hr := w.os.hrSetFileName path
    (emit w (.setFileName path hr), check hr)
  | none => (w, .ok ())

/-- `IDialog::set_title`: when a title is configured, pass it to `SetTitle`. -/
def set_title (w : World) (title : Option String) : World × Except HRESULT Unit :=
  match title with
  | some t =>
    let hr := w.os.hrSetTitle t
    (emit w (.setTitle t hr), check hr)
  | none => (w, .ok ())

/-- `IDialog::show`: `Show` with the stored parent handle (null when absent). -/
def show_dialog (w : World) (self : IDialog) : World × Except HRESULT Unit :=
  let hr := w.os.hrShow self.parent
  (emit w (.showDialog self.parent hr), check hr)

/-- The loop body of `IDialog::get_results`: for each index, `GetItemAt`,
`GetDisplayName`, decode the buffer, `CoTaskMemFree` it, collect the path. -/
def results_loop (w : World) (arr : Nat) (ids : List Nat) (acc : List PathBuf) :
    World × Except HRESULT (List PathBuf) :=
  match ids with
  | [] => (w, .ok acc)
  | idx :: rest =>
    let r1 := w.os.getItemAtResp arr idx
    let w1 := emit w (.getItemAtCall arr idx r1.1)
    match check r1.1 with
    | .error e => (w1, .error e)
    | .ok _ =>
      let r2 := w1.os.getDisplayNameResp r1.2
      match check r2.1 with
      | .error e => (emit w1 (.getDisplayNameCall r1.2 r2.1 none), .error e)
      | .ok _ =>
        let w2 := emit w1 (.getDisplayNameCall r1.2 r2.1 (some r2.2.id))
        let filename := r2.2.content
        let w3 := emit w2 (.coTaskMemFree r2.2.id)
        results_loop w3 arr rest (acc ++ [filename])

/-- `IDialog::get_results`: `GetResults` (checked), `GetCount` (status code
discarded by the source), then the per-item loop; on success `Release` the
item array and return the paths. -/
def get_results (w : World) : World × Except HRESULT (List PathBuf) :=
  let r0 := w.os.getResultsResp
  let w1 := emit w (.getResultsCall r0.1)
  match check r0.1 with
  | .error e => (w1, .error e)
  | .ok _ =>
    let rc := w1.os.getCountResp r0.2
    let w2 := emit w1 (.getCountCall r0.2 rc.1 rc.2)
    match results_loop w2 r0.2 (List.range rc.2) [] with
    | (w3, .error e) => (w3, .error e)
    | (w3, .ok paths) => (emit w3 (.release r0.2), .ok paths)

/-- `IDialog::get_result`: `GetResult` (checked), `GetDisplayName` (checked),
decode the buffer, `CoTaskMemFree` it, return the path. -/
def get_result (w : World) : World × Except HRESULT PathBuf :=
  let r0 := w.os.getResultResp
  let w1 := emit w (.getResultCall r0.1)
  match check r0.1 with
  | .error e => (w1, .error e)
  | .ok _ =>
    let r1 := w1.os.getDisplayNameResp r0.2
    match check r1.1 with
    | .error e => (emit w1 (.getDisplayNameCall r0.2 r1.1 none), .error e)
    | .ok _ =>
      let w2 := emit w1 (.getDisplayNameCall r0.2 r1.1 (some r1.2.id))
      let w3 := emit w2 (.coTaskMemFree r1.2.id)
      (w3, .ok r1.2.content)

/-- `IDialog::build_pick_file`: open dialog, then filters, path, file name,
title, in that order; a failing step drops the dialog (Rust drop semantics
`Release` the handle) and propagates the failure. -/
def build_pick_file (w : World) : World × Except HRESULT IDialog :=
  match new_open_dialog w with
  | (w1, .error e) => (w1, .error e)
  | (w1, .ok dlg) =>
    match add_filters w1 w1.config.filters with
    | (w2, .error e) => (emit w2 (.release dlg.handle), .error e)
    | (w2, .ok _) =>
      match set_path w2 w2.config.starting_directory with
      | (w3, .error e) => (emit w3 (.release dlg.handle), .error e)
      | (w3, .ok _) =>
        match set_file_name w3 w3.config.file_name with
        | (w4, .error e) => (emit w4 (.release dlg.handle), .error e)
        | (w4, .ok _) =>
          match set_title w4 w4.config.title with
          | (w5, .error e) => (emit w5 (.release dlg.handle), .error e)
          | (w5, .ok _) => (w5, .ok dlg)

/-- `IDialog::build_save_file`: save dialog, then filters, path, file name,
title, in that order; a failing step drops the dialog and propagates. -/
def build_save_file (w : World) : World × Except HRESULT IDialog :=
  match new_save_dialog w with
  | (w1, .error e) => (w1, .error e)
  | (w1, .ok dlg) =>
    match add_filters w1 w1.config.filters with
    | (w2, .error e) => (emit w2 (.release dlg.handle), .error e)
    | (w2, .ok _) =>
      match set_path w2 w2.config.starting_directory with
      | (w3, .error e) => (emit w3 (.release dlg.handle), .error e)
      | (w3, .ok _) =>
        match set_file_name w3 w3.config.file_name with
        | (w4, .error e) => (emit w4 (.release dlg.handle), .error e)
        | (w4, .ok _) =>
          match set_title w4 w4.config.title with
          | (w5, .error e) => (emit w5 (.release dlg.handle), .error e)
          | (w5, .ok _) => (w5, .ok dlg)

/-- `IDialog::build_pick_folder`: open dialog, then path, title, and
`SetOptions FOS_PICKFOLDERS`; a failing step drops the dialog and propagates.
Filters and file name are not translated. -/
def build_pick_folder (w : World) : World × Except HRESULT IDialog :=
  match new_open_dialog w with
  | (w1, .error e) => (w1, .error e)
  | (w1, .ok dlg) =>
    match set_path w1 w1.config.starting_directory with
    | (w2, .error e) => (emit w2 (.release dlg.handle), .error e)
    | (w2, .ok _) =>
      match set_title w2 w2.config.title with
      | (w3, .error e) => (emit w3 (.release dlg.handle), .error e)
      | (w3, .ok _) =>
        let hr := w3.os.hrSetOptions FOS_PICKFOLDERS
        let w4 := emit w3 (.setOptions FOS_PICKFOLDERS hr)
        match check hr with
        | .error e => (emit w4 (.release dlg.handle), .error e)
        | .ok _ => (w4, .ok dlg)

/-- `IDialog::build_pick_files`: open dialog, then filters, path, file name,
title, and `SetOptions FOS_ALLOWMULTISELECT`; a failing step drops the dialog
and propagates. -/
def build_pick_files (w : World) : World × Except HRESULT IDialog :=
  match new_open_dialog w with
  | (w1, .error e) => (w1, .error e)
  | (w1, .ok dlg) =>
    match add_filters w1 w1.config.filters with
    | (w2, .error e) => (emit w2 (.release dlg.handle), .error e)
    | (w2, .ok _) =>
      match set_path w2 w2.config.starting_directory with
      | (w3, .error e) => (emit w3 (.release dlg.handle), .error e)
      | (w3, .ok _) =>
        match set_file_name w3 w3.config.file_name with
        | (w4, .error e) => (emit w4 (.release dlg.handle), .error e)
        | (w4, .ok _) =>
          match set_title w4 w4.config.title with
          | (w5, .error e) => (emit w5 (.release dlg.handle), .error e)
          | (w5, .ok _) =>
            let hr := w5.os.hrSetOptions FOS_ALLOWMULTISELECT
            let w6 := emit w5 (.setOptions FOS_ALLOWMULTISELECT hr)
            match check hr with
            | .error e => (emit w6 (.release dlg.handle), .error e)
            | .ok _ => (w6, .ok dlg)

/-- Modelled from the spec: the show-and-collect invocation — the caller
(outside this source file) that builds the dialog, shows it, collects the
single result and lets the wrapper go out of scope; Rust drop semantics
`Release` the handle when the wrapper's lifetime ends, on every path. -/
def invoke_pick_file (w : World) : World × Except HRESULT PathBuf :=
  match build_pick_file w with
  | (w1, .error e) => (w1, .error e)
  | (w1, .ok dlg) =>
    match show_dialog w1 dlg with
    | (w2, .error e) => (emit w2 (.release dlg.handle), .error e)
    | (w2, .ok _) =>
      match get_result w2 with
      | (w3, .error e) => (emit w3 (.release dlg.handle), .error e)
      | (w3, .ok p) => (emit w3 (.release dlg.handle), .ok p)

/-- Modelled from the spec: the show-and-collect invocation for the
multi-select dialog: build, show, collect the result list, drop the wrapper. -/
def invoke_pick_files (w : World) : World × Except HRESULT (List PathBuf) :=
  match build_pick_files w with
  | (w1, .error e) => (w1, .error e)
  | (w1, .ok dlg) =>
    match show_dialog w1 dlg with
    | (w2, .error e) => (emit w2 (.release dlg.handle), .error e)
    | (w2, .ok _) =>
      match get_results w2 with
      | (w3, .error e) => (emit w3 (.release dlg.handle), .error e)
      | (w3, .ok ps) => (emit w3 (.release dlg.handle), .ok ps)

/-- Modelled from the spec: the show-and-collect invocation for the save
dialog: build, show, collect the single result, drop the wrapper. -/
def invoke_save_file (w : World) : World × Except HRESULT PathBuf :=
  match build_save_file w with
  | (w1, .error e) => (w1, .error e)
  | (w1, .ok dlg) =>
    match show_dialog w1 dlg with
    | (w2, .error e) => (emit w2 (.release dlg.handle), .error e)
    | (w2, .ok _) =>
      match get_result w2 with
      | (w3, .error e) => (emit w3 (.release dlg.handle), .error e)
      | (w3, .ok p) => (emit w3 (.release dlg.handle), .ok p)

/-- Modelled from the spec: the show-and-collect invocation for the folder
dialog: build, show, collect the single result, drop the wrapper. -/
def invoke_pick_folder (w : World) : World × Except HRESULT PathBuf :=
  match build_pick_folder w with
  | (w1, .error e) => (w1, .error e)
  | (w1, .ok dlg) =>
    match show_dialog w1 dlg with
    | (w2, .error e) => (emit w2 (.release dlg.handle), .error e)
    | (w2, .ok _) =>
      match get_result w2 with
      | (w3, .error e) => (emit w3 (.release dlg.handle), .error e)
      | (w3, .ok p) => (emit w3 (.release dlg.handle), .ok p)

/-! ### Characterizations of the native calls each operation makes

For each operation, the list of native calls it appends to the trace and the
result it returns, as pure functions of the oracle and the arguments. These are
proved equal to the operations above and simplify reasoning about traces. -/

/-- The `SetFileTypes` call of `add_filters`, made when the spec list is
non-empty. -/
def setFileTypesCalls (os : OS) (filters : List Filter) : List NCall :=
  if (filters.map filterSpec).isEmpty then []
  else [.setFileTypes (filters.map filterSpec) (os.hrSetFileTypes (filters.map filterSpec))]

def setFileTypesResult (os : OS) (filters : List Filter) : Except HRESULT Unit :=
  if (filters.map filterSpec).isEmpty then .ok ()
  else check (os.hrSetFileTypes (filters.map filterSpec))

def add_filters_delta (os : OS) (filters : List Filter) : List NCall :=
  match filters.head? with
  | some f =>
    match f.extensions.head? with
    | some e =>
      .setDefaultExtension e (os.hrSetDefaultExtension e) ::
        (if os.hrSetDefaultExtension e < 0 then [] else setFileTypesCalls os filters)
    | none => setFileTypesCalls os filters
  | none => setFileTypesCalls os filters

def add_filters_result (os : OS) (filters : List Filter) : Except HRESULT Unit :=
  match filters.head? with
  | some f =>
    match f.extensions.head? with
    | some e =>
      if os.hrSetDefaultExtension e < 0 then .error (os.hrSetDefaultExtension e)
      else setFileTypesResult os filters
    | none => setFileTypesResult os filters
  | none => setFileTypesResult os filters

def set_path_delta (os : OS) (path : Option PathBuf) : List NCall :=
  match path with
  | some p =>
    match p.to_str with
    | some s =>
      .shCreateItemFromParsingName s (os.shCreateItem s).1 ::
        (if (os.shCreateItem s).1 < 0 then []
         else [.setFolder (os.shCreateItem s).2 (os.hrSetFolder (os.shCreateItem s).2)])
    | none => []
  | none => []

def set_path_result (os : OS) (path : Option PathBuf) : Except HRESULT Unit :=
  match path with
  | some p =>
    match p.to_str with
    | some s =>
      if (os.shCreateItem s).1 < 0 then .error (os.shCreateItem s).1
      else check (os.hrSetFolder (os.shCreateItem s).2)
    | none => .ok ()
  | none => .ok ()

def set_file_name_delta (os : OS) (n : Option String) : List NCall :=
  match n with
  | some s => [.setFileName s (os.hrSetFileName s)]
  | none => []

def set_file_name_result (os : OS) (n : Option String) : Except HRESULT Unit :=
  match n with
  | some s => check (os.hrSetFileName s)
  | none => .ok ()

def set_title_delta (os : OS) (t : Option String) : List NCall :=
  match t with
  | some s => [.setTitle s (os.hrSetTitle s)]
  | none => []

def set_title_result (os : OS) (t : Option String) : Except HRESULT Unit :=
  match t with
  | some s => check (os.hrSetTitle s)
  | none => .ok ()

def show_dialog_delta (os : OS) (d : IDialog) : List NCall :=
  [.showDialog d.parent (os.hrShow d.parent)]

def get_result_delta (os : OS) : List NCall :=
  .getResultCall os.getResultResp.1 ::
    (if os.getResultResp.1 < 0 then []
     else
       if (os.getDisplayNameResp os.getResultResp.2).1 < 0 then
         [.getDisplayNameCall os.getResultResp.2 (os.getDisplayNameResp os.getResultResp.2).1 none]
       else
         [.getDisplayNameCall os.getResultResp.2 (os.getDisplayNameResp os.getResultResp.2).1
            (some (os.getDisplayNameResp os.getResultResp.2).2.id),
          .coTaskMemFree (os.getDisplayNameResp os.getResultResp.2).2.id])

def get_result_result (os : OS) : Except HRESULT PathBuf :=
  if os.getResultResp.1 < 0 then .error os.getResultResp.1
  else
    if (os.getDisplayNameResp os.getResultResp.2).1 < 0 then
      .error (os.getDisplayNameResp os.getResultResp.2).1
    else .ok (os.getDisplayNameResp os.getResultResp.2).2.content

def results_loop_delta (os : OS) (arr : Nat) : List Nat → List NCall
  | [] => []
  | idx :: rest =>
    .getItemAtCall arr idx (os.getItemAtResp arr idx).1 ::
      (if (os.getItemAtResp arr idx).1 < 0 then []
       else
         if (os.getDisplayNameResp (os.getItemAtResp arr idx).2).1 < 0 then
           [.getDisplayNameCall (os.getItemAtResp arr idx).2
              (os.getDisplayNameResp (os.getItemAtResp arr idx).2).1 none]
         else
           .getDisplayNameCall (os.getItemAtResp arr idx).2
               (os.getDisplayNameResp (os.getItemAtResp arr idx).2).1
               (some (os.getDisplayNameResp (os.getItemAtResp arr idx).2).2.id) ::
             .coTaskMemFree (os.getDisplayNameResp (os.getItemAtResp arr idx).2).2.id ::
               results_loop_delta os arr rest)

def results_loop_result (os : OS) (arr : Nat) :
    List Nat → List PathBuf → Except HRESULT (List PathBuf)
  | [], acc => .ok acc
  | idx :: rest, acc =>
    if (os.getItemAtResp arr idx).1 < 0 then .error (os.getItemAtResp arr idx).1
    else
      if (os.getDisplayNameResp (os.getItemAtResp arr idx).2).1 < 0 then
        .error (os.getDisplayNameResp (os.getItemAtResp arr idx).2).1
      else
        results_loop_result os arr rest
          (acc ++ [(os.getDisplayNameResp (os.getItemAtResp arr idx).2).2.content])

def get_results_delta (os : OS) : List NCall :=
  .getResultsCall os.getResultsResp.1 ::
    (if os.getResultsResp.1 < 0 then []
     else
       .getCountCall os.getResultsResp.2 (os.getCountResp os.getResultsResp.2).1
           (os.getCountResp os.getResultsResp.2).2 ::
         (results_loop_delta os os.getResultsResp.2
             (List.range (os.getCountResp os.getResultsResp.2).2) ++
           match results_loop_result os os.getResultsResp.2
               (List.range (os.getCountResp os.getResultsResp.2).2) [] with
           | .error _ => []
           | .ok _ => [.release os.getResultsResp.2]))

def get_results_result (os : OS) : Except HRESULT (List PathBuf) :=
  if os.getResultsResp.1 < 0 then .error os.getResultsResp.1
  else
    results_loop_result os os.getResultsResp.2
      (List.range (os.getCountResp os.getResultsResp.2).2) []

def build_pick_file_delta (os : OS) (cfg : FileDialog) : List NCall :=
  .coCreateInstance .openDlg (os.coCreate .openDlg).1 ::
    (if (os.coCreate .openDlg).1 < 0 then []
     else
       add_filters_delta os cfg.filters ++
         match add_filters_result os cfg.filters with
         | .error _ => [.release (os.coCreate .openDlg).2]
         | .ok _ =>
           set_path_delta os cfg.starting_directory ++
             match set_path_result os cfg.starting_directory with
             | .error _ => [.release (os.coCreate .openDlg).2]
             | .ok _ =>
               set_file_name_delta os cfg.file_name ++
                 match set_file_name_result os cfg.file_name with
                 | .error _ => [.release (os.coCreate .openDlg).2]
                 | .ok _ =>
                   set_title_delta os cfg.title ++
                     match set_title_result os cfg.title with
                     | .error _ => [.release (os.coCreate .openDlg).2]
                     | .ok _ => [])

def build_pick_file_result (os : OS) (cfg : FileDialog) : Except HRESULT IDialog :=
  if (os.coCreate .openDlg).1 < 0 then .error (os.coCreate .openDlg).1
  else
    match add_filters_result os cfg.filters with
    | .error e => .error e
    | .ok _ =>
      match set_path_result os cfg.starting_directory with
      | .error e => .error e
      | .ok _ =>
        match set_file_name_result os cfg.file_name with
        | .error e => .error e
        | .ok _ =>
          match set_title_result os cfg.title with
          | .error e => .error e
          | .ok _ => .ok ⟨(os.coCreate .openDlg).2, cfg.parent⟩

def build_save_file_delta (os : OS) (cfg : FileDialog) : List NCall :=
  .coCreateInstance .saveDlg (os.coCreate .saveDlg).1 ::
    (if (os.coCreate .saveDlg).1 < 0 then []
     else
       add_filters_delta os cfg.filters ++
         match add_filters_result os cfg.filters with
         | .error _ => [.release (os.coCreate .saveDlg).2]
         | .ok _ =>
           set_path_delta os cfg.starting_directory ++
             match set_path_result os cfg.starting_directory with
             | .error _ => [.release (os.coCreate .saveDlg).2]
             | .ok _ =>
               set_file_name_delta os cfg.file_name ++
                 match set_file_name_result os cfg.file_name with
                 | .error _ => [.release (os.coCreate .saveDlg).2]
                 | .ok _ =>
                   set_title_delta os cfg.title ++
                     match set_title_result os cfg.title with
                     | .error _ => [.release (os.coCreate .saveDlg).2]
                     | .ok _ => [])

def build_save_file_result (os : OS) (cfg : FileDialog) : Except HRESULT IDialog :=
  if (os.coCreate .saveDlg).1 < 0 then .error (os.coCreate .saveDlg).1
  else
    match add_filters_result os cfg.filters with
    | .error e => .error e
    | .ok _ =>
      match set_path_result os cfg.starting_directory with
      | .error e => .error e
      | .ok _ =>
        match set_file_name_result os cfg.file_name with
        | .error e => .error e
        | .ok _ =>
          match set_title_result os cfg.title with
          | .error e => .error e
          | .ok _ => .ok ⟨(os.coCreate .saveDlg).2, cfg.parent⟩

def build_pick_folder_delta (os : OS) (cfg : FileDialog) : List NCall :=
  .coCreateInstance .openDlg (os.coCreate .openDlg).1 ::
    (if (os.coCreate .openDlg).1 < 0 then []
     else
       set_path_delta os cfg.starting_directory ++
         match set_path_result os cfg.starting_directory with
         | .error _ => [.release (os.coCreate .openDlg).2]
         | .ok _ =>
           set_title_delta os cfg.title ++
             match set_title_result os cfg.title with
             | .error _ => [.release (os.coCreate .openDlg).2]
             | .ok _ =>
               .setOptions FOS_PICKFOLDERS (os.hrSetOptions FOS_PICKFOLDERS) ::
                 (if os.hrSetOptions FOS_PICKFOLDERS < 0 then
                    [.release (os.coCreate .openDlg).2]
                  else []))

def build_pick_folder_result (os : OS) (cfg : FileDialog) : Except HRESULT IDialog :=
  if (os.coCreate .openDlg).1 < 0 then .error (os.coCreate .openDlg).1
  else
    match set_path_result os cfg.starting_directory with
    | .error e => .error e
    | .ok _ =>
      match set_title_result os cfg.title with
      | .error e => .error e
      | .ok _ =>
        if os.hrSetOptions FOS_PICKFOLDERS < 0 then .error (os.hrSetOptions FOS_PICKFOLDERS)
        else .ok ⟨(os.coCreate .openDlg).2, cfg.parent⟩

def build_pick_files_delta (os : OS) (cfg : FileDialog) : List NCall :=
  .coCreateInstance .openDlg (os.coCreate .openDlg).1 ::
    (if (os.coCreate .openDlg).1 < 0 then []
     else
       add_filters_delta os cfg.filters ++
         match add_filters_result os cfg.filters with
         | .error _ => [.release (os.coCreate .openDlg).2]
         | .ok _ =>
           set_path_delta os cfg.starting_directory ++
             match set_path_result os cfg.starting_directory with
             | .error _ => [.release (os.coCreate .openDlg).2]
             | .ok _ =>
               set_file_name_delta os cfg.file_name ++
                 match set_file_name_result os cfg.file_name with
                 | .error _ => [.release (os.coCreate .openDlg).2]
                 | .ok _ =>
                   set_title_delta os cfg.title ++
                     match set_title_result os cfg.title with
                     | .error _ => [.release (os.coCreate .openDlg).2]
                     | .ok _ =>
                       .setOptions FOS_ALLOWMULTISELECT (os.hrSetOptions FOS_ALLOWMULTISELECT) ::
                         (if os.hrSetOptions FOS_ALLOWMULTISELECT < 0 then
                            [.release (os.coCreate .openDlg).2]
                          else []))

def build_pick_files_result (os : OS) (cfg : FileDialog) : Except HRESULT IDialog :=
  if (os.coCreate .openDlg).1 < 0 then .error (os.coCreate .openDlg).1
  else
    match add_filters_result os cfg.filters with
    | .error e => .error e
    | .ok _ =>
      match set_path_result os cfg.starting_directory with
      | .error e => .error e
      | .ok _ =>
        match set_file_name_result os cfg.file_name with
        | .error e => .error e
        | .ok _ =>
          match set_title_result os cfg.title with
          | .error e => .error e
          | .ok _ =>
            if os.hrSetOptions FOS_ALLOWMULTISELECT < 0 then
              .error (os.hrSetOptions FOS_ALLOWMULTISELECT)
            else .ok ⟨(os.coCreate .openDlg).2, cfg.parent⟩

/-! ### Statement-side vocabulary -/

/-- Whether a recorded native call is a `Release` of the given handle. -/
def isReleaseOf (h : Nat) : NCall → Bool
  | .release h2 => decide (h2 = h)
  | _ => false

/-- Number of `Release` calls on a given handle in a trace. -/
def countRelease (h : Nat) (t : List NCall) : Nat :=
  t.countP (isReleaseOf h)

/-- One step of the buffer-discipline state machine: `p` is the outstanding
`GetDisplayName` buffer, if any. A successful `GetDisplayName` allocates (only
when none is outstanding), `CoTaskMemFree` must free exactly the outstanding
buffer, every other call leaves the state unchanged; `none` (outer) marks a
violation. -/
def stepAF (c : NCall) (p : Option Nat) : Option (Option Nat) :=
  match c with
  | .getDisplayNameCall _ _ ob =>
    match ob, p with
    | some b, none => some (some b)
    | some _, some _ => none
    | none, q => some q
  | .coTaskMemFree b =>
    match p with
    | some b2 => if b = b2 then some none else none
    | none => none
  | _ => some p

/-- Run the buffer-discipline state machine over a trace: returns the
outstanding buffer at the end, or `none` (outer) if the discipline was
violated. -/
def allocFreeRun : List NCall → Option Nat → Option (Option Nat)
  | [], p => some p
  | c :: rest, p =>
    match stepAF c p with
    | none => none
    | some q => allocFreeRun rest q

/-- Every buffer returned by a successful `GetDisplayName` in the trace is
freed exactly once, after its allocation and before the end of the trace. -/
def BuffersFreedOnce (t : List NCall) : Prop :=
  allocFreeRun t none = some none

/-- Every status-returning native call in the trace other than `GetCount`
came back with a success (non-negative) status code. An operation that
swallowed a failing checked call and still returned `Ok` would violate this on
its success runs. -/
def NoCheckedFailure (t : List NCall) : Prop :=
  ∀ c ∈ t, c.isGetCount = false → ∀ s, NCall.status c = some s → 0 ≤ s

/-- The pattern string the claim describes for a filter's extensions:
`*.e1;*.e2;...;*.ek`, written by direct recursion. -/
def specPattern : List String → String
  | [] => ""
  | [e] => "*." ++ e
  | e :: f :: rest => "*." ++ e ++ ";" ++ specPattern (f :: rest)

/-- The tail of the joined pattern string: `;*.e` for each remaining
extension. -/
def tailPat : List String → String
  | [] => ""
  | e :: rest => ";" ++ ("*." ++ e) ++ tailPat rest

/-- The oracle reports success (a non-negative status) on every call the
dialog builders and `Show` can make. -/
structure OSSucceeds (os : OS) : Prop where
  coCreate : ∀ c, 0 ≤ (os.coCreate c).1
  setDefaultExtension : ∀ s, 0 ≤ os.hrSetDefaultExtension s
  setFileTypes : ∀ l, 0 ≤ os.hrSetFileTypes l
  shCreateItem : ∀ s, 0 ≤ (os.shCreateItem s).1
  setFolder : ∀ n, 0 ≤ os.hrSetFolder n
  setFileName : ∀ s, 0 ≤ os.hrSetFileName s
  setTitle : ∀ s, 0 ≤ os.hrSetTitle s
  setOptions : ∀ n, 0 ≤ os.hrSetOptions n
  hrShow : ∀ p, 0 ≤ os.hrShow p

/-- The `SetDefaultExtension` call made when the first filter has a first
extension, and nothing otherwise. -/
def defaultExtCalls (os : OS) (fs : List Filter) : List NCall :=
  match fs.head? with
  | some f =>
    match f.extensions.head? with
    | some e => [.setDefaultExtension e (os.hrSetDefaultExtension e)]
    | none => []
  | none => []

/-- The sequence of native configuration calls that translates the filter
field (claim vocabulary): a `SetDefaultExtension` for the first extension of
the first filter when present, then one `SetFileTypes` with one spec per
filter when the list is non-empty. -/
def expectedFilterCalls (os : OS) (fs : List Filter) : List NCall :=
  defaultExtCalls os fs ++
    (match fs with
     | [] => []
     | _ :: _ => [.setFileTypes (fs.map filterSpec) (os.hrSetFileTypes (fs.map filterSpec))])

/-- The native calls translating the starting-directory field: create a shell
item from the path, then `SetFolder` it. -/
def expectedPathCalls (os : OS) (p : Option PathBuf) : List NCall :=
  match p with
  | some pb =>
    match pb.to_str with
    | some s =>
      [.shCreateItemFromParsingName s (os.shCreateItem s).1,
       .setFolder (os.shCreateItem s).2 (os.hrSetFolder (os.shCreateItem s).2)]
    | none => []
  | none => []

/-- The native call translating the file-name field. -/
def expectedFileNameCalls (os : OS) (n : Option String) : List NCall :=
  match n with
  | some s => [.setFileName s (os.hrSetFileName s)]
  | none => []

/-- The native call translating the title field. -/
def expectedTitleCalls (os : OS) (t : Option String) : List NCall :=
  match t with
  | some s => [.setTitle s (os.hrSetTitle s)]
  | none => []

/-! ### Concrete worlds used to exercise the theorems -/

/-- An oracle on which every call succeeds with status 0; the dialog handle is
1, the shell item 2, the result-item array 7, result items 3 and 4, and
display names decode to a fixed Unicode path in buffer 5. -/
def osOk : OS where
  coCreate := fun _ => (0, 1)
  hrSetDefaultExtension := fun _ => 0
  hrSetFileTypes := fun _ => 0
  shCreateItem := fun _ => (0, 2)
  hrSetFolder := fun _ => 0
  hrSetFileName := fun _ => 0
  hrSetTitle := fun _ => 0
  hrSetOptions := fun _ => 0
  hrShow := fun _ => 0
  getResultsResp := (0, 7)
  getCountResp := fun _ => (0, 1)
  getItemAtResp := fun _ _ => (0, 3)
  getDisplayNameResp := fun _ => (0, ⟨5, .unicode "C:\\picked.txt"⟩)
  getResultResp := (0, 4)

/-- `osOk` except that `GetCount` fails with status -1 (reporting count 0). -/
def osBadCount : OS :=
  { osOk with getCountResp := fun _ => (-1, 0) }

/-- `osOk` except that `GetResults` fails with status -3 and `GetResult` with
status -4. -/
def osBadResults : OS :=
  { osOk with getResultsResp := (-3, 7), getResultResp := (-4, 4) }

/-- An empty configuration. -/
def cfgEmpty : FileDialog :=
  { filters := [], starting_directory := none, file_name := none, title := none,
    parent := none }

/-- A configuration with every field populated. -/
def cfgFull : FileDialog :=
  { filters := [{ name := "Images", extensions := ["jpg", "png"] }],
    starting_directory := some (.unicode "C:\\start"),
    file_name := some "out.png",
    title := some "Pick an image",
    parent := some 99 }

/-- A configuration with a filter and a file name but no directory or title;
used against `build_pick_folder`, which translates neither field. -/
def cfgFolderCx : FileDialog :=
  { filters := [{ name := "Text", extensions := ["txt"] }],
    starting_directory := none, file_name := some "a.txt", title := none,
    parent := none }

/-! ## Characterization lemmas -/

theorem new_file_dialog_eq (w : World) (cls : DialogClass) :
    new_file_dialog w cls =
      ({ w with trace := w.trace ++ [.coCreateInstance cls (w.os.coCreate cls).1] },
        if (w.os.coCreate cls).1 < 0 then .error (w.os.coCreate cls).1
        else .ok (w.os.coCreate cls).2) := by
  by_cases h : (w.os.coCreate cls).1 < 0 <;>
    simp [new_file_dialog, check, emit, h]

theorem add_filters_eq (w : World) (fs : List Filter) :
    add_filters w fs =
      ({ w with trace := w.trace ++ add_filters_delta w.os fs },
        add_filters_result w.os fs) := by
  match fs with
  | [] =>
    simp [add_filters, add_filters_delta, add_filters_result, setFileTypesCalls,
      setFileTypesResult, emit]
  | ⟨n, []⟩ :: rest =>
    by_cases h : w.os.hrSetFileTypes ((Filter.mk n [] :: rest).map filterSpec) < 0 <;>
      simp [add_filters, add_filters_delta, add_filters_result, setFileTypesCalls,
        setFileTypesResult, emit, check, h]
  | ⟨n, e :: es⟩ :: rest =>
    by_cases h : w.os.hrSetDefaultExtension e < 0
    · simp [add_filters, add_filters_delta, add_filters_result, setFileTypesCalls,
        setFileTypesResult, emit, check, h]
    · by_cases h2 : w.os.hrSetFileTypes ((Filter.mk n (e :: es) :: rest).map filterSpec) < 0 <;>
        simp [add_filters, add_filters_delta, add_filters_result, setFileTypesCalls,
          setFileTypesResult, emit, check, h, h2, List.append_assoc]

theorem set_path_eq (w : World) (p : Option PathBuf) :
    set_path w p =
      ({ w with trace := w.trace ++ set_path_delta w.os p }, set_path_result w.os p) := by
  match p with
  | none => simp [set_path, set_path_delta, set_path_result]
  | some (.nonUnicode bs) =>
    simp [set_path, set_path_delta, set_path_result, PathBuf.to_str]
  | some (.unicode s) =>
    by_cases h : (w.os.shCreateItem s).1 < 0 <;>
      simp [set_path, set_path_delta, set_path_result, PathBuf.to_str, emit, check, h,
        List.append_assoc]

theorem set_file_name_eq (w : World) (n : Option String) :
    set_file_name w n =
      ({ w with trace := w.trace ++ set_file_name_delta w.os n },
        set_file_name_result w.os n) := by
  match n with
  | none => simp [set_file_name, set_file_name_delta, set_file_name_result]
  | some s => simp [set_file_name, set_file_name_delta, set_file_name_result, emit]

theorem set_title_eq (w : World) (t : Option String) :
    set_title w t =
      ({ w with trace := w.trace ++ set_title_delta w.os t }, set_title_result w.os t) := by
  match t with
  | none => simp [set_title, set_title_delta, set_title_result]
  | some s => simp [set_title, set_title_delta, set_title_result, emit]

theorem show_dialog_eq (w : World) (d : IDialog) :
    show_dialog w d =
      ({ w with trace := w.trace ++ show_dialog_delta w.os d },
        check (w.os.hrShow d.parent)) := by
  simp [show_dialog, show_dialog_delta, emit]

theorem get_result_eq (w : World) :
    get_result w =
      ({ w with trace := w.trace ++ get_result_delta w.os }, get_result_result w.os) := by
  by_cases h0 : w.os.getResultResp.1 < 0
  · simp [get_result, get_result_delta, get_result_result, emit, check, h0]
  · by_cases h1 : (w.os.getDisplayNameResp w.os.getResultResp.2).1 < 0 <;>
      simp [get_result, get_result_delta, get_result_result, emit, check, h0, h1,
        List.append_assoc]

theorem results_loop_eq (ids : List Nat) :
    ∀ (w : World) (arr : Nat) (acc : List PathBuf),
      results_loop w arr ids acc =
        ({ w with trace := w.trace ++ results_loop_delta w.os arr ids },
          results_loop_result w.os arr ids acc) := by
  induction ids with
  | nil =>
    intro w arr acc
    simp [results_loop, results_loop_delta, results_loop_result]
  | cons idx rest ih =>
    intro w arr acc
    by_cases h1 : (w.os.getItemAtResp arr idx).1 < 0
    · simp [results_loop, results_loop_delta, results_loop_result, emit, check, h1]
    · by_cases h2 : (w.os.getDisplayNameResp (w.os.getItemAtResp arr idx).2).1 < 0 <;>
        simp [results_loop, results_loop_delta, results_loop_result, emit, check, h1, h2, ih,
          List.append_assoc]

theorem get_results_eq (w : World) :
    get_results w =
      ({ w with trace := w.trace ++ get_results_delta w.os }, get_results_result w.os) := by
  by_cases h0 : w.os.getResultsResp.1 < 0
  · simp [get_results, get_results_delta, get_results_result, emit, check, h0]
  · rcases hloop : results_loop_result w.os w.os.getResultsResp.2
      (List.range (w.os.getCountResp w.os.getResultsResp.2).2) [] with e | ps <;>
      simp [get_results, get_results_delta, get_results_result, emit, check, h0,
        results_loop_eq, hloop, List.append_assoc]

theorem build_pick_file_eq (w : World) :
    build_pick_file w =
      ({ w with trace := w.trace ++ build_pick_file_delta w.os w.config },
        build_pick_file_result w.os w.config) := by
  unfold build_pick_file new_open_dialog
  rw [new_file_dialog_eq]
  by_cases h0 : (w.os.coCreate .openDlg).1 < 0
  · simp [build_pick_file_delta, build_pick_file_result, h0]
  · rcases h1 : add_filters_result w.os w.config.filters with e1 | u1
    · simp [build_pick_file_delta, build_pick_file_result, h0, h1, add_filters_eq, emit,
        List.append_assoc]
    · rcases h2 : set_path_result w.os w.config.starting_directory with e2 | u2
      · simp [build_pick_file_delta, build_pick_file_result, h0, h1, h2, add_filters_eq,
          set_path_eq, emit, List.append_assoc]
      · rcases h3 : set_file_name_result w.os w.config.file_name with e3 | u3
        · simp [build_pick_file_delta, build_pick_file_result, h0, h1, h2, h3, add_filters_eq,
            set_path_eq, set_file_name_eq, emit, List.append_assoc]
        · rcases h4 : set_title_result w.os w.config.title with e4 | u4 <;>
            simp [build_pick_file_delta, build_pick_file_result, h0, h1, h2, h3, h4,
              add_filters_eq, set_path_eq, set_file_name_eq, set_title_eq, emit,
              List.append_assoc]

theorem build_save_file_eq (w : World) :
    build_save_file w =
      ({ w with trace := w.trace ++ build_save_file_delta w.os w.config },
        build_save_file_result w.os w.config) := by
  unfold build_save_file new_save_dialog
  rw [new_file_dialog_eq]
  by_cases h0 : (w.os.coCreate .saveDlg).1 < 0
  · simp [build_save_file_delta, build_save_file_result, h0]
  · rcases h1 : add_filters_result w.os w.config.filters with e1 | u1
    · simp [build_save_file_delta, build_save_file_result, h0, h1, add_filters_eq, emit,
        List.append_assoc]
    · rcases h2 : set_path_result w.os w.config.starting_directory with e2 | u2
      · simp [build_save_file_delta, build_save_file_result, h0, h1, h2, add_filters_eq,
          set_path_eq, emit, List.append_assoc]
      · rcases h3 : set_file_name_result w.os w.config.file_name with e3 | u3
        · simp [build_save_file_delta, build_save_file_result, h0, h1, h2, h3, add_filters_eq,
            set_path_eq, set_file_name_eq, emit, List.append_assoc]
        · rcases h4 : set_title_result w.os w.config.title with e4 | u4 <;>
            simp [build_save_file_delta, build_save_file_result, h0, h1, h2, h3, h4,
              add_filters_eq, set_path_eq, set_file_name_eq, set_title_eq, emit,
              List.append_assoc]

theorem build_pick_folder_eq (w : World) :
    build_pick_folder w =
      ({ w with trace := w.trace ++ build_pick_folder_delta w.os w.config },
        build_pick_folder_result w.os w.config) := by
  unfold build_pick_folder new_open_dialog
  rw [new_file_dialog_eq]
  by_cases h0 : (w.os.coCreate .openDlg).1 < 0
  · simp [build_pick_folder_delta, build_pick_folder_result, h0]
  · rcases h1 : set_path_result w.os w.config.starting_directory with e1 | u1
    · simp [build_pick_folder_delta, build_pick_folder_result, h0, h1, set_path_eq, emit,
        List.append_assoc]
    · rcases h2 : set_title_result w.os w.config.title with e2 | u2
      · simp [build_pick_folder_delta, build_pick_folder_result, h0, h1, h2, set_path_eq,
          set_title_eq, emit, List.append_assoc]
      · by_cases h3 : w.os.hrSetOptions FOS_PICKFOLDERS < 0 <;>
          simp [build_pick_folder_delta, build_pick_folder_result, h0, h1, h2, h3,
            set_path_eq, set_title_eq, emit, check, List.append_assoc]

theorem build_pick_files_eq (w : World) :
    build_pick_files w =
      ({ w with trace := w.trace ++ build_pick_files_delta w.os w.config },
        build_pick_files_result w.os w.config) := by
  unfold build_pick_files new_open_dialog
  rw [new_file_dialog_eq]
  by_cases h0 : (w.os.coCreate .openDlg).1 < 0
  · simp [build_pick_files_delta, build_pick_files_result, h0]
  · rcases h1 : add_filters_result w.os w.config.filters with e1 | u1
    · simp [build_pick_files_delta, build_pick_files_result, h0, h1, add_filters_eq, emit,
        List.append_assoc]
    · rcases h2 : set_path_result w.os w.config.starting_directory with e2 | u2
      · simp [build_pick_files_delta, build_pick_files_result, h0, h1, h2, add_filters_eq,
          set_path_eq, emit, List.append_assoc]
      · rcases h3 : set_file_name_result w.os w.config.file_name with e3 | u3
        · simp [build_pick_files_delta, build_pick_files_result, h0, h1, h2, h3,
            add_filters_eq, set_path_eq, set_file_name_eq, emit, List.append_assoc]
        · rcases h4 : set_title_result w.os w.config.title with e4 | u4
          · simp [build_pick_files_delta, build_pick_files_result, h0, h1, h2, h3, h4,
              add_filters_eq, set_path_eq, set_file_name_eq, set_title_eq, emit,
              List.append_assoc]
          · by_cases h5 : w.os.hrSetOptions FOS_ALLOWMULTISELECT < 0 <;>
              simp [build_pick_files_delta, build_pick_files_result, h0, h1, h2, h3, h4, h5,
                add_filters_eq, set_path_eq, set_file_name_eq, set_title_eq, emit, check,
                List.append_assoc]

/-! ## Release counting -/

@[simp] theorem countRelease_nil (h : Nat) : countRelease h [] = 0 := rfl

@[simp] theorem countRelease_cons (h : Nat) (c : NCall) (t : List NCall) :
    countRelease h (c :: t) = countRelease h t + (if isReleaseOf h c then 1 else 0) := by
  simp [countRelease, List.countP_cons]

@[simp] theorem countRelease_append (h : Nat) (t1 t2 : List NCall) :
    countRelease h (t1 ++ t2) = countRelease h t1 + countRelease h t2 := by
  simp [countRelease, List.countP_append]

theorem countRelease_setFileTypesCalls (h : Nat) (os : OS) (fs : List Filter) :
    countRelease h (setFileTypesCalls os fs) = 0 := by
  unfold setFileTypesCalls
  split <;> simp [isReleaseOf]

theorem countRelease_add_filters_delta (h : Nat) (os : OS) (fs : List Filter) :
    countRelease h (add_filters_delta os fs) = 0 := by
  match fs with
  | [] => simp [add_filters_delta, countRelease_setFileTypesCalls]
  | ⟨n, []⟩ :: rest => simp [add_filters_delta, countRelease_setFileTypesCalls]
  | ⟨n, e :: es⟩ :: rest =>
    by_cases hr : os.hrSetDefaultExtension e < 0 <;>
      simp [add_filters_delta, hr, isReleaseOf, countRelease_setFileTypesCalls]

theorem countRelease_set_path_delta (h : Nat) (os : OS) (p : Option PathBuf) :
    countRelease h (set_path_delta os p) = 0 := by
  match p with
  | none => simp [set_path_delta]
  | some (.nonUnicode bs) => simp [set_path_delta, PathBuf.to_str]
  | some (.unicode s) =>
    by_cases hr : (os.shCreateItem s).1 < 0 <;>
      simp [set_path_delta, PathBuf.to_str, hr, isReleaseOf]

theorem countRelease_set_file_name_delta (h : Nat) (os : OS) (n : Option String) :
    countRelease h (set_file_name_delta os n) = 0 := by
  match n with
  | none => simp [set_file_name_delta]
  | some s => simp [set_file_name_delta, isReleaseOf]

theorem countRelease_set_title_delta (h : Nat) (os : OS) (t : Option String) :
    countRelease h (set_title_delta os t) = 0 := by
  match t with
  | none => simp [set_title_delta]
  | some s => simp [set_title_delta, isReleaseOf]

theorem countRelease_show_dialog_delta (h : Nat) (os : OS) (d : IDialog) :
    countRelease h (show_dialog_delta os d) = 0 := by
  simp [show_dialog_delta, isReleaseOf]

theorem countRelease_get_result_delta (h : Nat) (os : OS) :
    countRelease h (get_result_delta os) = 0 := by
  by_cases h0 : os.getResultResp.1 < 0
  · simp [get_result_delta, h0, isReleaseOf]
  · by_cases h1 : (os.getDisplayNameResp os.getResultResp.2).1 < 0 <;>
      simp [get_result_delta, h0, h1, isReleaseOf]

theorem countRelease_results_loop_delta (h : Nat) (os : OS) (arr : Nat) (ids : List Nat) :
    countRelease h (results_loop_delta os arr ids) = 0 := by
  induction ids with
  | nil => simp [results_loop_delta]
  | cons idx rest ih =>
    by_cases h1 : (os.getItemAtResp arr idx).1 < 0
    · simp [results_loop_delta, h1, isReleaseOf]
    · by_cases h2 : (os.getDisplayNameResp (os.getItemAtResp arr idx).2).1 < 0 <;>
        simp [results_loop_delta, h1, h2, ih, isReleaseOf]

theorem countRelease_get_results_delta (h : Nat) (os : OS)
    (harr : os.getResultsResp.2 ≠ h) :
    countRelease h (get_results_delta os) = 0 := by
  by_cases h0 : os.getResultsResp.1 < 0
  · simp [get_results_delta, h0, isReleaseOf]
  · rcases hloop : results_loop_result os os.getResultsResp.2
      (List.range (os.getCountResp os.getResultsResp.2).2) [] with e | ps <;>
      simp [get_results_delta, h0, hloop, isReleaseOf, harr,
        countRelease_results_loop_delta]

theorem countRelease_build_pick_file_delta_fail (h : Nat) (os : OS) (cfg : FileDialog)
    (h0 : (os.coCreate .openDlg).1 < 0) :
    countRelease h (build_pick_file_delta os cfg) = 0 := by
  simp [build_pick_file_delta, h0, isReleaseOf]

theorem countRelease_build_pick_file_delta (os : OS) (cfg : FileDialog)
    (h0 : ¬(os.coCreate .openDlg).1 < 0) :
    countRelease (os.coCreate .openDlg).2 (build_pick_file_delta os cfg) =
      (match build_pick_file_result os cfg with
       | .error _ => 1
       | .ok _ => 0) := by
  rcases h1 : add_filters_result os cfg.filters with e1 | u1
  · simp [build_pick_file_delta, build_pick_file_result, h0, h1, isReleaseOf,
      countRelease_add_filters_delta]
  · rcases h2 : set_path_result os cfg.starting_directory with e2 | u2
    · simp [build_pick_file_delta, build_pick_file_result, h0, h1, h2, isReleaseOf,
        countRelease_add_filters_delta, countRelease_set_path_delta]
    · rcases h3 : set_file_name_result os cfg.file_name with e3 | u3
      · simp [build_pick_file_delta, build_pick_file_result, h0, h1, h2, h3, isReleaseOf,
          countRelease_add_filters_delta, countRelease_set_path_delta,
          countRelease_set_file_name_delta]
      · rcases h4 : set_title_result os cfg.title with e4 | u4 <;>
          simp [build_pick_file_delta, build_pick_file_result, h0, h1, h2, h3, h4,
            isReleaseOf, countRelease_add_filters_delta, countRelease_set_path_delta,
            countRelease_set_file_name_delta, countRelease_set_title_delta]

theorem countRelease_build_save_file_delta_fail (h : Nat) (os : OS) (cfg : FileDialog)
    (h0 : (os.coCreate .saveDlg).1 < 0) :
    countRelease h (build_save_file_delta os cfg) = 0 := by
  simp [build_save_file_delta, h0, isReleaseOf]

theorem countRelease_build_save_file_delta (os : OS) (cfg : FileDialog)
    (h0 : ¬(os.coCreate .saveDlg).1 < 0) :
    countRelease (os.coCreate .saveDlg).2 (build_save_file_delta os cfg) =
      (match build_save_file_result os cfg with
       | .error _ => 1
       | .ok _ => 0) := by
  rcases h1 : add_filters_result os cfg.filters with e1 | u1
  · simp [build_save_file_delta, build_save_file_result, h0, h1, isReleaseOf,
      countRelease_add_filters_delta]
  · rcases h2 : set_path_result os cfg.starting_directory with e2 | u2
    · simp [build_save_file_delta, build_save_file_result, h0, h1, h2, isReleaseOf,
        countRelease_add_filters_delta, countRelease_set_path_delta]
    · rcases h3 : set_file_name_result os cfg.file_name with e3 | u3
      · simp [build_save_file_delta, build_save_file_result, h0, h1, h2, h3, isReleaseOf,
          countRelease_add_filters_delta, countRelease_set_path_delta,
          countRelease_set_file_name_delta]
      · rcases h4 : set_title_result os cfg.title with e4 | u4 <;>
          simp [build_save_file_delta, build_save_file_result, h0, h1, h2, h3, h4,
            isReleaseOf, countRelease_add_filters_delta, countRelease_set_path_delta,
            countRelease_set_file_name_delta, countRelease_set_title_delta]

theorem countRelease_build_pick_folder_delta_fail (h : Nat) (os : OS) (cfg : FileDialog)
    (h0 : (os.coCreate .openDlg).1 < 0) :
    countRelease h (build_pick_folder_delta os cfg) = 0 := by
  simp [build_pick_folder_delta, h0, isReleaseOf]

theorem countRelease_build_pick_folder_delta (os : OS) (cfg : FileDialog)
    (h0 : ¬(os.coCreate .openDlg).1 < 0) :
    countRelease (os.coCreate .openDlg).2 (build_pick_folder_delta os cfg) =
      (match build_pick_folder_result os cfg with
       | .error _ => 1
       | .ok _ => 0) := by
  rcases h1 : set_path_result os cfg.starting_directory with e1 | u1
  · simp [build_pick_folder_delta, build_pick_folder_result, h0, h1, isReleaseOf,
      countRelease_set_path_delta]
  · rcases h2 : set_title_result os cfg.title with e2 | u2
    · simp [build_pick_folder_delta, build_pick_folder_result, h0, h1, h2, isReleaseOf,
        countRelease_set_path_delta, countRelease_set_title_delta]
    · by_cases h3 : os.hrSetOptions FOS_PICKFOLDERS < 0 <;>
        simp [build_pick_folder_delta, build_pick_folder_result, h0, h1, h2, h3, isReleaseOf,
          countRelease_set_path_delta, countRelease_set_title_delta]

theorem countRelease_build_pick_files_delta_fail (h : Nat) (os : OS) (cfg : FileDialog)
    (h0 : (os.coCreate .openDlg).1 < 0) :
    countRelease h (build_pick_files_delta os cfg) = 0 := by
  simp [build_pick_files_delta, h0, isReleaseOf]

theorem countRelease_build_pick_files_delta (os : OS) (cfg : FileDialog)
    (h0 : ¬(os.coCreate .openDlg).1 < 0) :
    countRelease (os.coCreate .openDlg).2 (build_pick_files_delta os cfg) =
      (match build_pick_files_result os cfg with
       | .error _ => 1
       | .ok _ => 0) := by
  rcases h1 : add_filters_result os cfg.filters with e1 | u1
  · simp [build_pick_files_delta, build_pick_files_result, h0, h1, isReleaseOf,
      countRelease_add_filters_delta]
  · rcases h2 : set_path_result os cfg.starting_directory with e2 | u2
    · simp [build_pick_files_delta, build_pick_files_result, h0, h1, h2, isReleaseOf,
        countRelease_add_filters_delta, countRelease_set_path_delta]
    · rcases h3 : set_file_name_result os cfg.file_name with e3 | u3
      · simp [build_pick_files_delta, build_pick_files_result, h0, h1, h2, h3, isReleaseOf,
          countRelease_add_filters_delta, countRelease_set_path_delta,
          countRelease_set_file_name_delta]
      · rcases h4 : set_title_result os cfg.title with e4 | u4
        · simp [build_pick_files_delta, build_pick_files_result, h0, h1, h2, h3, h4,
            isReleaseOf, countRelease_add_filters_delta, countRelease_set_path_delta,
            countRelease_set_file_name_delta, countRelease_set_title_delta]
        · by_cases h5 : os.hrSetOptions FOS_ALLOWMULTISELECT < 0 <;>
            simp [build_pick_files_delta, build_pick_files_result, h0, h1, h2, h3, h4, h5,
              isReleaseOf, countRelease_add_filters_delta, countRelease_set_path_delta,
              countRelease_set_file_name_delta, countRelease_set_title_delta]

theorem build_pick_file_result_ok (os : OS) (cfg : FileDialog) (dlg : IDialog)
    (h : build_pick_file_result os cfg = .ok dlg) :
    dlg = ⟨(os.coCreate .openDlg).2, cfg.parent⟩ ∧ ¬(os.coCreate .openDlg).1 < 0 := by
  unfold build_pick_file_result at h
  by_cases h0 : (os.coCreate .openDlg).1 < 0
  · simp [h0] at h
  · refine ⟨?_, h0⟩
    simp only [h0, if_false] at h
    rcases h1 : add_filters_result os cfg.filters with e1 | u1
    · simp [h1] at h
    · simp only [h1] at h
      rcases h2 : set_path_result os cfg.starting_directory with e2 | u2
      · simp [h2] at h
      · simp only [h2] at h
        rcases h3 : set_file_name_result os cfg.file_name with e3 | u3
        · simp [h3] at h
        · simp only [h3] at h
          rcases h4 : set_title_result os cfg.title with e4 | u4
          · simp [h4] at h
          · simp only [h4] at h
            exact (Except.ok.inj h).symm

theorem build_save_file_result_ok (os : OS) (cfg : FileDialog) (dlg : IDialog)
    (h : build_save_file_result os cfg = .ok dlg) :
    dlg = ⟨(os.coCreate .saveDlg).2, cfg.parent⟩ ∧ ¬(os.coCreate .saveDlg).1 < 0 := by
  unfold build_save_file_result at h
  by_cases h0 : (os.coCreate .saveDlg).1 < 0
  · simp [h0] at h
  · refine ⟨?_, h0⟩
    simp only [h0, if_false] at h
    rcases h1 : add_filters_result os cfg.filters with e1 | u1
    · simp [h1] at h
    · simp only [h1] at h
      rcases h2 : set_path_result os cfg.starting_directory with e2 | u2
      · simp [h2] at h
      · simp only [h2] at h
        rcases h3 : set_file_name_result os cfg.file_name with e3 | u3
        · simp [h3] at h
        · simp only [h3] at h
          rcases h4 : set_title_result os cfg.title with e4 | u4
          · simp [h4] at h
          · simp only [h4] at h
            exact (Except.ok.inj h).symm

theorem build_pick_folder_result_ok (os : OS) (cfg : FileDialog) (dlg : IDialog)
    (h : build_pick_folder_result os cfg = .ok dlg) :
    dlg = ⟨(os.coCreate .openDlg).2, cfg.parent⟩ ∧ ¬(os.coCreate .openDlg).1 < 0 := by
  unfold build_pick_folder_result at h
  by_cases h0 : (os.coCreate .openDlg).1 < 0
  · simp [h0] at h
  · refine ⟨?_, h0⟩
    simp only [h0, if_false] at h
    rcases h1 : set_path_result os cfg.starting_directory with e1 | u1
    · simp [h1] at h
    · simp only [h1] at h
      rcases h2 : set_title_result os cfg.title with e2 | u2
      · simp [h2] at h
      · simp only [h2] at h
        by_cases h3 : os.hrSetOptions FOS_PICKFOLDERS < 0
        · simp [h3] at h
        · simp only [h3, if_false] at h
          exact (Except.ok.inj h).symm

theorem build_pick_files_result_ok (os : OS) (cfg : FileDialog) (dlg : IDialog)
    (h : build_pick_files_result os cfg = .ok dlg) :
    dlg = ⟨(os.coCreate .openDlg).2, cfg.parent⟩ ∧ ¬(os.coCreate .openDlg).1 < 0 := by
  unfold build_pick_files_result at h
  by_cases h0 : (os.coCreate .openDlg).1 < 0
  · simp [h0] at h
  · refine ⟨?_, h0⟩
    simp only [h0, if_false] at h
    rcases h1 : add_filters_result os cfg.filters with e1 | u1
    · simp [h1] at h
    · simp only [h1] at h
      rcases h2 : set_path_result os cfg.starting_directory with e2 | u2
      · simp [h2] at h
      · simp only [h2] at h
        rcases h3 : set_file_name_result os cfg.file_name with e3 | u3
        · simp [h3] at h
        · simp only [h3] at h
          rcases h4 : set_title_result os cfg.title with e4 | u4
          · simp [h4] at h
          · simp only [h4] at h
            by_cases h5 : os.hrSetOptions FOS_ALLOWMULTISELECT < 0
            · simp [h5] at h
            · simp only [h5, if_false] at h
              exact (Except.ok.inj h).symm

theorem invoke_pick_file_release_count (os : OS) (cfg : FileDialog) :
    countRelease (os.coCreate .openDlg).2 (invoke_pick_file (World.init os cfg)).1.trace
      = if (os.coCreate .openDlg).1 < 0 then 0 else 1 := by
  unfold invoke_pick_file
  rw [build_pick_file_eq]
  simp only [World.init]
  rcases hb : build_pick_file_result os cfg with e | dlg
  · by_cases h0 : (os.coCreate .openDlg).1 < 0
    · simp [hb, h0, countRelease_build_pick_file_delta_fail _ os cfg h0]
    · have hc := countRelease_build_pick_file_delta os cfg h0
      rw [hb] at hc
      simp [hb, h0, hc]
  · obtain ⟨hdlg, h0⟩ := build_pick_file_result_ok os cfg dlg hb
    subst hdlg
    have hc := countRelease_build_pick_file_delta os cfg h0
    rw [hb] at hc
    by_cases hs : os.hrShow cfg.parent < 0
    · simp [hb, h0, hs, show_dialog_eq, check, emit, hc,
        countRelease_show_dialog_delta, isReleaseOf]
    · rcases hg : get_result_result os with e | p <;>
        simp [hb, h0, hs, hg, show_dialog_eq, get_result_eq, check, emit, hc,
          countRelease_show_dialog_delta, countRelease_get_result_delta, isReleaseOf]

theorem invoke_save_file_release_count (os : OS) (cfg : FileDialog) :
    countRelease (os.coCreate .saveDlg).2 (invoke_save_file (World.init os cfg)).1.trace
      = if (os.coCreate .saveDlg).1 < 0 then 0 else 1 := by
  unfold invoke_save_file
  rw [build_save_file_eq]
  simp only [World.init]
  rcases hb : build_save_file_result os cfg with e | dlg
  · by_cases h0 : (os.coCreate .saveDlg).1 < 0
    · simp [hb, h0, countRelease_build_save_file_delta_fail _ os cfg h0]
    · have hc := countRelease_build_save_file_delta os cfg h0
      rw [hb] at hc
      simp [hb, h0, hc]
  · obtain ⟨hdlg, h0⟩ := build_save_file_result_ok os cfg dlg hb
    subst hdlg
    have hc := countRelease_build_save_file_delta os cfg h0
    rw [hb] at hc
    by_cases hs : os.hrShow cfg.parent < 0
    · simp [hb, h0, hs, show_dialog_eq, check, emit, hc,
        countRelease_show_dialog_delta, isReleaseOf]
    · rcases hg : get_result_result os with e | p <;>
        simp [hb, h0, hs, hg, show_dialog_eq, get_result_eq, check, emit, hc,
          countRelease_show_dialog_delta, countRelease_get_result_delta, isReleaseOf]

theorem invoke_pick_folder_release_count (os : OS) (cfg : FileDialog) :
    countRelease (os.coCreate .openDlg).2 (invoke_pick_folder (World.init os cfg)).1.trace
      = if (os.coCreate .openDlg).1 < 0 then 0 else 1 := by
  unfold invoke_pick_folder
  rw [build_pick_folder_eq]
  simp only [World.init]
  rcases hb : build_pick_folder_result os cfg with e | dlg
  · by_cases h0 : (os.coCreate .openDlg).1 < 0
    · simp [hb, h0, countRelease_build_pick_folder_delta_fail _ os cfg h0]
    · have hc := countRelease_build_pick_folder_delta os cfg h0
      rw [hb] at hc
      simp [hb, h0, hc]
  · obtain ⟨hdlg, h0⟩ := build_pick_folder_result_ok os cfg dlg hb
    subst hdlg
    have hc := countRelease_build_pick_folder_delta os cfg h0
    rw [hb] at hc
    by_cases hs : os.hrShow cfg.parent < 0
    · simp [hb, h0, hs, show_dialog_eq, check, emit, hc,
        countRelease_show_dialog_delta, isReleaseOf]
    · rcases hg : get_result_result os with e | p <;>
        simp [hb, h0, hs, hg, show_dialog_eq, get_result_eq, check, emit, hc,
          countRelease_show_dialog_delta, countRelease_get_result_delta, isReleaseOf]

theorem invoke_pick_files_release_count (os : OS) (cfg : FileDialog)
    (harr : os.getResultsResp.2 ≠ (os.coCreate .openDlg).2) :
    countRelease (os.coCreate .openDlg).2 (invoke_pick_files (World.init os cfg)).1.trace
      = if (os.coCreate .openDlg).1 < 0 then 0 else 1 := by
  unfold invoke_pick_files
  rw [build_pick_files_eq]
  simp only [World.init]
  rcases hb : build_pick_files_result os cfg with e | dlg
  · by_cases h0 : (os.coCreate .openDlg).1 < 0
    · simp [hb, h0, countRelease_build_pick_files_delta_fail _ os cfg h0]
    · have hc := countRelease_build_pick_files_delta os cfg h0
      rw [hb] at hc
      simp [hb, h0, hc]
  · obtain ⟨hdlg, h0⟩ := build_pick_files_result_ok os cfg dlg hb
    subst hdlg
    have hc := countRelease_build_pick_files_delta os cfg h0
    rw [hb] at hc
    by_cases hs : os.hrShow cfg.parent < 0
    · simp [hb, h0, hs, show_dialog_eq, check, emit, hc,
        countRelease_show_dialog_delta, isReleaseOf]
    · rcases hg : get_results_result os with e | ps <;>
        simp [hb, h0, hs, hg, show_dialog_eq, get_results_eq, check, emit, hc,
          countRelease_show_dialog_delta,
          countRelease_get_results_delta _ os harr, isReleaseOf]

/-! ## Success-path characterizations -/

theorem add_filters_delta_succ (os : OS) (fs : List Filter) (h : OSSucceeds os) :
    add_filters_delta os fs = expectedFilterCalls os fs := by
  match fs with
  | [] =>
    simp [add_filters_delta, expectedFilterCalls, defaultExtCalls, setFileTypesCalls]
  | ⟨n, []⟩ :: rest =>
    simp [add_filters_delta, expectedFilterCalls, defaultExtCalls, setFileTypesCalls]
  | ⟨n, e :: es⟩ :: rest =>
    simp [add_filters_delta, expectedFilterCalls, defaultExtCalls, setFileTypesCalls,
      not_lt.mpr (h.setDefaultExtension e)]

theorem add_filters_result_succ (os : OS) (fs : List Filter) (h : OSSucceeds os) :
    add_filters_result os fs = .ok () := by
  match fs with
  | [] => simp [add_filters_result, setFileTypesResult]
  | ⟨n, []⟩ :: rest =>
    simp [add_filters_result, setFileTypesResult, check, not_lt.mpr (h.setFileTypes _)]
  | ⟨n, e :: es⟩ :: rest =>
    simp [add_filters_result, setFileTypesResult, check,
      not_lt.mpr (h.setDefaultExtension e), not_lt.mpr (h.setFileTypes _)]

theorem set_path_delta_succ (os : OS) (p : Option PathBuf) (h : OSSucceeds os) :
    set_path_delta os p = expectedPathCalls os p := by
  match p with
  | none => rfl
  | some (.nonUnicode bs) => rfl
  | some (.unicode s) =>
    simp [set_path_delta, expectedPathCalls, PathBuf.to_str,
      not_lt.mpr (h.shCreateItem s)]

theorem set_path_result_succ (os : OS) (p : Option PathBuf) (h : OSSucceeds os) :
    set_path_result os p = .ok () := by
  match p with
  | none => rfl
  | some (.nonUnicode bs) => rfl
  | some (.unicode s) =>
    simp [set_path_result, PathBuf.to_str, check,
      not_lt.mpr (h.shCreateItem s), not_lt.mpr (h.setFolder _)]

theorem set_file_name_delta_eq_expected (os : OS) (n : Option String) :
    set_file_name_delta os n = expectedFileNameCalls os n := by
  match n with
  | none => rfl
  | some s => rfl

theorem set_file_name_result_succ (os : OS) (n : Option String) (h : OSSucceeds os) :
    set_file_name_result os n = .ok () := by
  match n with
  | none => rfl
  | some s => simp [set_file_name_result, check, not_lt.mpr (h.setFileName s)]

theorem set_title_delta_eq_expected (os : OS) (t : Option String) :
    set_title_delta os t = expectedTitleCalls os t := by
  match t with
  | none => rfl
  | some s => rfl

theorem set_title_result_succ (os : OS) (t : Option String) (h : OSSucceeds os) :
    set_title_result os t = .ok () := by
  match t with
  | none => rfl
  | some s => simp [set_title_result, check, not_lt.mpr (h.setTitle s)]

theorem build_pick_file_delta_succ (os : OS) (cfg : FileDialog) (h : OSSucceeds os) :
    build_pick_file_delta os cfg =
      .coCreateInstance .openDlg (os.coCreate .openDlg).1 ::
        (expectedFilterCalls os cfg.filters ++
         expectedPathCalls os cfg.starting_directory ++
         expectedFileNameCalls os cfg.file_name ++
         expectedTitleCalls os cfg.title) := by
  simp [build_pick_file_delta, not_lt.mpr (h.coCreate .openDlg),
    add_filters_delta_succ os cfg.filters h, add_filters_result_succ os cfg.filters h,
    set_path_delta_succ os cfg.starting_directory h,
    set_path_result_succ os cfg.starting_directory h,
    set_file_name_delta_eq_expected os cfg.file_name,
    set_file_name_result_succ os cfg.file_name h,
    set_title_delta_eq_expected os cfg.title,
    set_title_result_succ os cfg.title h, List.append_assoc]

theorem build_pick_file_result_succ (os : OS) (cfg : FileDialog) (h : OSSucceeds os) :
    build_pick_file_result os cfg = .ok ⟨(os.coCreate .openDlg).2, cfg.parent⟩ := by
  simp [build_pick_file_result, not_lt.mpr (h.coCreate .openDlg),
    add_filters_result_succ os cfg.filters h,
    set_path_result_succ os cfg.starting_directory h,
    set_file_name_result_succ os cfg.file_name h,
    set_title_result_succ os cfg.title h]

theorem build_save_file_delta_succ (os : OS) (cfg : FileDialog) (h : OSSucceeds os) :
    build_save_file_delta os cfg =
      .coCreateInstance .saveDlg (os.coCreate .saveDlg).1 ::
        (expectedFilterCalls os cfg.filters ++
         expectedPathCalls os cfg.starting_directory ++
         expectedFileNameCalls os cfg.file_name ++
         expectedTitleCalls os cfg.title) := by
  simp [build_save_file_delta, not_lt.mpr (h.coCreate .saveDlg),
    add_filters_delta_succ os cfg.filters h, add_filters_result_succ os cfg.filters h,
    set_path_delta_succ os cfg.starting_directory h,
    set_path_result_succ os cfg.starting_directory h,
    set_file_name_delta_eq_expected os cfg.file_name,
    set_file_name_result_succ os cfg.file_name h,
    set_title_delta_eq_expected os cfg.title,
    set_title_result_succ os cfg.title h, List.append_assoc]

theorem build_save_file_result_succ (os : OS) (cfg : FileDialog) (h : OSSucceeds os) :
    build_save_file_result os cfg = .ok ⟨(os.coCreate .saveDlg).2, cfg.parent⟩ := by
  simp [build_save_file_result, not_lt.mpr (h.coCreate .saveDlg),
    add_filters_result_succ os cfg.filters h,
    set_path_result_succ os cfg.starting_directory h,
    set_file_name_result_succ os cfg.file_name h,
    set_title_result_succ os cfg.title h]

theorem build_pick_folder_delta_succ (os : OS) (cfg : FileDialog) (h : OSSucceeds os) :
    build_pick_folder_delta os cfg =
      .coCreateInstance .openDlg (os.coCreate .openDlg).1 ::
        (expectedPathCalls os cfg.starting_directory ++
         expectedTitleCalls os cfg.title ++
         [.setOptions FOS_PICKFOLDERS (os.hrSetOptions FOS_PICKFOLDERS)]) := by
  simp [build_pick_folder_delta, not_lt.mpr (h.coCreate .openDlg),
    set_path_delta_succ os cfg.starting_directory h,
    set_path_result_succ os cfg.starting_directory h,
    set_title_delta_eq_expected os cfg.title,
    set_title_result_succ os cfg.title h,
    not_lt.mpr (h.setOptions FOS_PICKFOLDERS), List.append_assoc]

theorem build_pick_folder_result_succ (os : OS) (cfg : FileDialog) (h : OSSucceeds os) :
    build_pick_folder_result os cfg = .ok ⟨(os.coCreate .openDlg).2, cfg.parent⟩ := by
  simp [build_pick_folder_result, not_lt.mpr (h.coCreate .openDlg),
    set_path_result_succ os cfg.starting_directory h,
    set_title_result_succ os cfg.title h,
    not_lt.mpr (h.setOptions FOS_PICKFOLDERS)]

theorem build_pick_files_delta_succ (os : OS) (cfg : FileDialog) (h : OSSucceeds os) :
    build_pick_files_delta os cfg =
      .coCreateInstance .openDlg (os.coCreate .openDlg).1 ::
        (expectedFilterCalls os cfg.filters ++
         expectedPathCalls os cfg.starting_directory ++
         expectedFileNameCalls os cfg.file_name ++
         expectedTitleCalls os cfg.title ++
         [.setOptions FOS_ALLOWMULTISELECT (os.hrSetOptions FOS_ALLOWMULTISELECT)]) := by
  simp [build_pick_files_delta, not_lt.mpr (h.coCreate .openDlg),
    add_filters_delta_succ os cfg.filters h, add_filters_result_succ os cfg.filters h,
    set_path_delta_succ os cfg.starting_directory h,
    set_path_result_succ os cfg.starting_directory h,
    set_file_name_delta_eq_expected os cfg.file_name,
    set_file_name_result_succ os cfg.file_name h,
    set_title_delta_eq_expected os cfg.title,
    set_title_result_succ os cfg.title h,
    not_lt.mpr (h.setOptions FOS_ALLOWMULTISELECT), List.append_assoc]

theorem build_pick_files_result_succ (os : OS) (cfg : FileDialog) (h : OSSucceeds os) :
    build_pick_files_result os cfg = .ok ⟨(os.coCreate .openDlg).2, cfg.parent⟩ := by
  simp [build_pick_files_result, not_lt.mpr (h.coCreate .openDlg),
    add_filters_result_succ os cfg.filters h,
    set_path_result_succ os cfg.starting_directory h,
    set_file_name_result_succ os cfg.file_name h,
    set_title_result_succ os cfg.title h,
    not_lt.mpr (h.setOptions FOS_ALLOWMULTISELECT)]

/-! ## Error propagation in the result-extraction operations -/

theorem getLast?_cons_of {α : Type} (a : α) {l : List α} {c : α}
    (h : l.getLast? = some c) : (a :: l).getLast? = some c := by
  rw [← List.singleton_append, List.getLast?_append, h]
  rfl

theorem results_loop_error_last (os : OS) (arr : Nat) :
    ∀ (ids : List Nat) (acc : List PathBuf) (e : HRESULT),
      results_loop_result os arr ids acc = .error e →
      ∃ c, (results_loop_delta os arr ids).getLast? = some c ∧
        c.status = some e ∧ e < 0 ∧ c.isGetCount = false := by
  intro ids
  induction ids with
  | nil =>
    intro acc e h
    simp [results_loop_result] at h
  | cons idx rest ih =>
    intro acc e h
    by_cases h1 : (os.getItemAtResp arr idx).1 < 0
    · simp [results_loop_result, h1] at h
      refine ⟨.getItemAtCall arr idx (os.getItemAtResp arr idx).1, ?_, ?_, ?_, ?_⟩
      · simp [results_loop_delta, h1]
      · simp [NCall.status, h]
      · exact h ▸ h1
      · simp [NCall.isGetCount]
    · by_cases h2 : (os.getDisplayNameResp (os.getItemAtResp arr idx).2).1 < 0
      · simp [results_loop_result, h1, h2] at h
        refine ⟨.getDisplayNameCall (os.getItemAtResp arr idx).2
          (os.getDisplayNameResp (os.getItemAtResp arr idx).2).1 none, ?_, ?_, ?_, ?_⟩
        · simp [results_loop_delta, h1, h2]
        · simp [NCall.status, h]
        · exact h ▸ h2
        · simp [NCall.isGetCount]
      · simp only [results_loop_result, if_neg h1, if_neg h2] at h
        obtain ⟨c, hlast, hstat, hneg, hgc⟩ := ih _ e h
        refine ⟨c, ?_, hstat, hneg, hgc⟩
        simp only [results_loop_delta, if_neg h1, if_neg h2]
        exact getLast?_cons_of _ (getLast?_cons_of _ (getLast?_cons_of _ hlast))

theorem get_results_error_last (os : OS) (e : HRESULT)
    (h : get_results_result os = .error e) :
    ∃ c, (get_results_delta os).getLast? = some c ∧
      c.status = some e ∧ e < 0 ∧ c.isGetCount = false := by
  by_cases h0 : os.getResultsResp.1 < 0
  · simp [get_results_result, h0] at h
    refine ⟨.getResultsCall os.getResultsResp.1, ?_, ?_, ?_, ?_⟩
    · simp [get_results_delta, h0]
    · simp [NCall.status, h]
    · exact h ▸ h0
    · simp [NCall.isGetCount]
  · simp only [get_results_result, if_neg h0] at h
    obtain ⟨c, hlast, hstat, hneg, hgc⟩ := results_loop_error_last os _ _ _ e h
    refine ⟨c, ?_, hstat, hneg, hgc⟩
    simp only [get_results_delta, if_neg h0, h, List.append_nil]
    exact getLast?_cons_of _ (getLast?_cons_of _ hlast)

theorem get_result_error_last (os : OS) (e : HRESULT)
    (h : get_result_result os = .error e) :
    ∃ c, (get_result_delta os).getLast? = some c ∧
      c.status = some e ∧ e < 0 ∧ c.isGetCount = false := by
  by_cases h0 : os.getResultResp.1 < 0
  · simp [get_result_result, h0] at h
    refine ⟨.getResultCall os.getResultResp.1, ?_, ?_, ?_, ?_⟩
    · simp [get_result_delta, h0]
    · simp [NCall.status, h]
    · exact h ▸ h0
    · simp [NCall.isGetCount]
  · by_cases h1 : (os.getDisplayNameResp os.getResultResp.2).1 < 0
    · simp [get_result_result, h0, h1] at h
      refine ⟨.getDisplayNameCall os.getResultResp.2
        (os.getDisplayNameResp os.getResultResp.2).1 none, ?_, ?_, ?_, ?_⟩
      · simp [get_result_delta, h0, h1]
      · simp [NCall.status, h]
      · exact h ▸ h1
      · simp [NCall.isGetCount]
    · simp [get_result_result, h0, h1] at h

theorem results_loop_ok_no_failure (os : OS) (arr : Nat) :
    ∀ (ids : List Nat) (acc ps : List PathBuf),
      results_loop_result os arr ids acc = .ok ps →
      ∀ c ∈ results_loop_delta os arr ids, ∀ s, NCall.status c = some s → 0 ≤ s := by
  intro ids
  induction ids with
  | nil =>
    intro acc ps h c hc
    simp [results_loop_delta] at hc
  | cons idx rest ih =>
    intro acc ps h c hc
    by_cases h1 : (os.getItemAtResp arr idx).1 < 0
    · simp [results_loop_result, h1] at h
    · by_cases h2 : (os.getDisplayNameResp (os.getItemAtResp arr idx).2).1 < 0
      · simp [results_loop_result, h1, h2] at h
      · simp only [results_loop_result, if_neg h1, if_neg h2] at h
        simp only [results_loop_delta, if_neg h1, if_neg h2, List.mem_cons] at hc
        rcases hc with rfl | rfl | rfl | hc
        · intro s hs
          simp only [NCall.status, Option.some.injEq] at hs
          exact hs ▸ not_lt.mp h1
        · intro s hs
          simp only [NCall.status, Option.some.injEq] at hs
          exact hs ▸ not_lt.mp h2
        · intro s hs
          simp [NCall.status] at hs
        · exact ih _ _ h c hc

theorem get_results_ok_no_failure (os : OS) (ps : List PathBuf)
    (h : get_results_result os = .ok ps) :
    NoCheckedFailure (get_results_delta os) := by
  intro c hc hgc s hs
  by_cases h0 : os.getResultsResp.1 < 0
  · simp [get_results_result, h0] at h
  · simp only [get_results_result, if_neg h0] at h
    simp only [get_results_delta, if_neg h0, h, List.mem_cons] at hc
    rcases hc with rfl | rfl | hc
    · simp only [NCall.status, Option.some.injEq] at hs
      exact hs ▸ not_lt.mp h0
    · simp [NCall.isGetCount] at hgc
    · rw [List.mem_append] at hc
      rcases hc with hc | hc
      · exact results_loop_ok_no_failure os _ _ _ _ h c hc s hs
      · simp only [List.mem_singleton] at hc
        subst hc
        simp [NCall.status] at hs

theorem get_result_ok_no_failure (os : OS) (p : PathBuf)
    (h : get_result_result os = .ok p) :
    NoCheckedFailure (get_result_delta os) := by
  intro c hc hgc s hs
  by_cases h0 : os.getResultResp.1 < 0
  · simp [get_result_result, h0] at h
  · by_cases h1 : (os.getDisplayNameResp os.getResultResp.2).1 < 0
    · simp [get_result_result, h0, h1] at h
    · simp only [get_result_delta, if_neg h0, if_neg h1, List.mem_cons] at hc
      rcases hc with rfl | rfl | rfl | hc
      · simp only [NCall.status, Option.some.injEq] at hs
        exact hs ▸ not_lt.mp h0
      · simp only [NCall.status, Option.some.injEq] at hs
        exact hs ▸ not_lt.mp h1
      · simp [NCall.status] at hs
      · simp at hc

/-! ## Buffer discipline -/

theorem allocFreeRun_append (t1 : List NCall) :
    ∀ (t2 : List NCall) (p : Option Nat),
      allocFreeRun (t1 ++ t2) p =
        (allocFreeRun t1 p).bind (fun q => allocFreeRun t2 q) := by
  induction t1 with
  | nil => intro t2 p; simp [allocFreeRun]
  | cons c t ih =>
    intro t2 p
    rcases hsc : stepAF c p with _ | q <;> simp [allocFreeRun, hsc, ih]

theorem allocFreeRun_get_result_delta (os : OS) :
    allocFreeRun (get_result_delta os) none = some none := by
  by_cases h0 : os.getResultResp.1 < 0
  · simp [get_result_delta, h0, allocFreeRun, stepAF]
  · by_cases h1 : (os.getDisplayNameResp os.getResultResp.2).1 < 0 <;>
      simp [get_result_delta, h0, h1, allocFreeRun, stepAF]

theorem allocFreeRun_results_loop_delta (os : OS) (arr : Nat) (ids : List Nat) :
    allocFreeRun (results_loop_delta os arr ids) none = some none := by
  induction ids with
  | nil => simp [results_loop_delta, allocFreeRun]
  | cons idx rest ih =>
    by_cases h1 : (os.getItemAtResp arr idx).1 < 0
    · simp [results_loop_delta, h1, allocFreeRun, stepAF]
    · by_cases h2 : (os.getDisplayNameResp (os.getItemAtResp arr idx).2).1 < 0 <;>
        simp [results_loop_delta, h1, h2, allocFreeRun, stepAF, ih]

theorem allocFreeRun_get_results_delta (os : OS) :
    allocFreeRun (get_results_delta os) none = some none := by
  by_cases h0 : os.getResultsResp.1 < 0
  · simp [get_results_delta, h0, allocFreeRun, stepAF]
  · rcases hloop : results_loop_result os os.getResultsResp.2
      (List.range (os.getCountResp os.getResultsResp.2).2) [] with e | ps <;>
      simp [get_results_delta, h0, hloop, allocFreeRun, stepAF, allocFreeRun_append,
        allocFreeRun_results_loop_delta]

/-! ## The joined filter pattern string -/

theorem specPattern_eq_tailPat (l : List String) :
    ∀ e, specPattern (e :: l) = ("*." ++ e) ++ tailPat l := by
  induction l with
  | nil => intro e; simp [specPattern, tailPat]
  | cons f rest ih =>
    intro e
    simp [specPattern, tailPat, ih f, String.append_assoc]

theorem go_tailPat (rest : List String) :
    ∀ acc, String.intercalate.go acc ";" (rest.map (fun e => "*." ++ e)) =
      acc ++ tailPat rest := by
  induction rest with
  | nil => intro acc; simp [String.intercalate.go, tailPat]
  | cons e rest ih =>
    intro acc
    simp [String.intercalate.go, tailPat, ih, String.append_assoc]

theorem intercalate_specPattern (l : List String) :
    String.intercalate ";" (l.map (fun e => "*." ++ e)) = specPattern l := by
  match l with
  | [] => rfl
  | e :: rest =>
    simp [String.intercalate, go_tailPat, specPattern_eq_tailPat]

/-! ## Filtered views of the expected call sequences -/

theorem filter_sft_defaultExtCalls (os : OS) (fs : List Filter) :
    (defaultExtCalls os fs).filter NCall.isSetFileTypes = [] := by
  rcases fs with _ | ⟨⟨n, exts⟩, rest⟩
  · rfl
  · rcases exts with _ | ⟨e, es⟩ <;> simp [defaultExtCalls, NCall.isSetFileTypes]

theorem filter_sde_defaultExtCalls (os : OS) (fs : List Filter) :
    (defaultExtCalls os fs).filter NCall.isSetDefaultExt = defaultExtCalls os fs := by
  rcases fs with _ | ⟨⟨n, exts⟩, rest⟩
  · rfl
  · rcases exts with _ | ⟨e, es⟩ <;> simp [defaultExtCalls, NCall.isSetDefaultExt]

theorem filter_sde_expectedFilterCalls (os : OS) (fs : List Filter) :
    (expectedFilterCalls os fs).filter NCall.isSetDefaultExt = defaultExtCalls os fs := by
  rcases fs with _ | ⟨f, rest⟩
  · rfl
  · simp [expectedFilterCalls, List.filter_append, filter_sde_defaultExtCalls,
      NCall.isSetDefaultExt]

theorem filter_sde_expectedPathCalls (os : OS) (p : Option PathBuf) :
    (expectedPathCalls os p).filter NCall.isSetDefaultExt = [] := by
  rcases p with _ | pb
  · rfl
  · rcases pb with s | bs <;> simp [expectedPathCalls, PathBuf.to_str, NCall.isSetDefaultExt]

theorem filter_sde_expectedFileNameCalls (os : OS) (n : Option String) :
    (expectedFileNameCalls os n).filter NCall.isSetDefaultExt = [] := by
  rcases n with _ | s <;> simp [expectedFileNameCalls, NCall.isSetDefaultExt]

theorem filter_sde_expectedTitleCalls (os : OS) (t : Option String) :
    (expectedTitleCalls os t).filter NCall.isSetDefaultExt = [] := by
  rcases t with _ | s <;> simp [expectedTitleCalls, NCall.isSetDefaultExt]

theorem countP_sdf_set_path_delta (os : OS) (p : Option PathBuf) :
    (set_path_delta os p).countP NCall.isSetDefaultFolder = 0 := by
  rcases p with _ | pb
  · rfl
  · rcases pb with s | bs
    · by_cases hr : (os.shCreateItem s).1 < 0 <;>
        simp [set_path_delta, PathBuf.to_str, hr, NCall.isSetDefaultFolder]
    · rfl

theorem osOk_succeeds : OSSucceeds osOk := by
  constructor <;> intro x <;> simp [osOk]

/-! ## Claims -/

/-- C1 counterexample: the claim that every native call's status code in
`get_results` is checked and propagated is false. With an oracle whose
`GetCount` fails with status -1 (while every other call succeeds),
`get_results` makes the failing `GetCount` call — recorded in its trace — yet
returns `Ok []` instead of propagating `Err (-1)`. -/
theorem C1_counterexample :
    (osBadCount.getCountResp 7).1 = -1 ∧ (-1 : HRESULT) < 0 ∧
    (get_results (World.init osBadCount cfgEmpty)).1.trace =
      [.getResultsCall 0, .getCountCall 7 (-1) 0, .release 7] ∧
    (get_results (World.init osBadCount cfgEmpty)).2 = .ok [] := by
  exact ⟨rfl, by norm_num, rfl, rfl⟩

/-- C1 (amended): in `get_results` and `get_result` every status-returning
native call except `GetCount` is checked and a failing status code `e` is
propagated immediately as `Err e`, in both directions. Forward: when either
operation returns `Ok`, no status-returning native call it made other than
`GetCount` returned a failure (negative) status — a failing checked call is
never swallowed or recovered from. Backward: when either operation returns
`Err e`, the last native call it made returned status `e`, `e` is a failure
code (negative), and that call is not `GetCount` (whose status code
`get_results` discards) — the failing call ends the run, with no retry. -/
theorem C1_amended_error_propagation (os : OS) (cfg : FileDialog) (e : HRESULT) :
    ((get_results (World.init os cfg)).2 = .error e →
      ∃ c, (get_results (World.init os cfg)).1.trace.getLast? = some c ∧
        c.status = some e ∧ e < 0 ∧ c.isGetCount = false) ∧
    ((get_result (World.init os cfg)).2 = .error e →
      ∃ c, (get_result (World.init os cfg)).1.trace.getLast? = some c ∧
        c.status = some e ∧ e < 0 ∧ c.isGetCount = false) ∧
    (∀ ps, (get_results (World.init os cfg)).2 = .ok ps →
      NoCheckedFailure (get_results (World.init os cfg)).1.trace) ∧
    (∀ p, (get_result (World.init os cfg)).2 = .ok p →
      NoCheckedFailure (get_result (World.init os cfg)).1.trace) := by
  have hres2 : (get_results (World.init os cfg)).2 = get_results_result os := by
    simp [get_results_eq, World.init]
  have hres1 : (get_results (World.init os cfg)).1.trace = get_results_delta os := by
    simp [get_results_eq, World.init]
  have hr2 : (get_result (World.init os cfg)).2 = get_result_result os := by
    simp [get_result_eq, World.init]
  have hr1 : (get_result (World.init os cfg)).1.trace = get_result_delta os := by
    simp [get_result_eq, World.init]
  refine ⟨?_, ?_, ?_, ?_⟩
  · intro h
    rw [hres2] at h
    rw [hres1]
    exact get_results_error_last os e h
  · intro h
    rw [hr2] at h
    rw [hr1]
    exact get_result_error_last os e h
  · intro ps h
    rw [hres2] at h
    rw [hres1]
    exact get_results_ok_no_failure os ps h
  · intro p h
    rw [hr2] at h
    rw [hr1]
    exact get_result_ok_no_failure os p h

/-- C1 witness: with `GetResults` failing with -3 and `GetResult` with -4,
both operations end their traces with the failing call and propagate its
status code; and on the all-success oracle, where both operations return
`Ok`, no checked call in either trace failed. -/
theorem C1_amended_error_propagation_witness :
    (∃ c, (get_results (World.init osBadResults cfgEmpty)).1.trace.getLast? = some c ∧
      c.status = some (-3) ∧ (-3 : HRESULT) < 0 ∧ c.isGetCount = false) ∧
    (∃ c, (get_result (World.init osBadResults cfgEmpty)).1.trace.getLast? = some c ∧
      c.status = some (-4) ∧ (-4 : HRESULT) < 0 ∧ c.isGetCount = false) ∧
    NoCheckedFailure (get_results (World.init osOk cfgEmpty)).1.trace ∧
    NoCheckedFailure (get_result (World.init osOk cfgEmpty)).1.trace :=
  ⟨(C1_amended_error_propagation osBadResults cfgEmpty (-3)).1 rfl,
   (C1_amended_error_propagation osBadResults cfgEmpty (-4)).2.1 rfl,
   (C1_amended_error_propagation osOk cfgEmpty 0).2.2.1
     [PathBuf.unicode "C:\\picked.txt"] rfl,
   (C1_amended_error_propagation osOk cfgEmpty 0).2.2.2
     (PathBuf.unicode "C:\\picked.txt") rfl⟩

/-- C2: over a whole show-and-collect invocation (build, show, collect, drop),
the native dialog handle is released exactly once when its creation succeeded
— on the success path and on every failure path — and zero times when
`CoCreateInstance` itself failed (no handle was obtained). The hypothesis
records that the OS hands out a result-item-array handle distinct from the
dialog handle. -/
theorem C2_handle_released_exactly_once (os : OS) (cfg : FileDialog)
    (harr : os.getResultsResp.2 ≠ (os.coCreate .openDlg).2) :
    (countRelease (os.coCreate .openDlg).2 (invoke_pick_file (World.init os cfg)).1.trace
        = if (os.coCreate .openDlg).1 < 0 then 0 else 1) ∧
    (countRelease (os.coCreate .openDlg).2 (invoke_pick_files (World.init os cfg)).1.trace
        = if (os.coCreate .openDlg).1 < 0 then 0 else 1) ∧
    (countRelease (os.coCreate .openDlg).2 (invoke_pick_folder (World.init os cfg)).1.trace
        = if (os.coCreate .openDlg).1 < 0 then 0 else 1) ∧
    (countRelease (os.coCreate .saveDlg).2 (invoke_save_file (World.init os cfg)).1.trace
        = if (os.coCreate .saveDlg).1 < 0 then 0 else 1) :=
  ⟨invoke_pick_file_release_count os cfg,
   invoke_pick_files_release_count os cfg harr,
   invoke_pick_folder_release_count os cfg,
   invoke_save_file_release_count os cfg⟩

/-- C2 witness: on the all-success oracle the dialog handle (1) is released
exactly once by each of the four invocations. -/
theorem C2_handle_released_exactly_once_witness :
    (countRelease (osOk.coCreate .openDlg).2
        (invoke_pick_file (World.init osOk cfgFull)).1.trace
        = if (osOk.coCreate .openDlg).1 < 0 then 0 else 1) ∧
    (countRelease (osOk.coCreate .openDlg).2
        (invoke_pick_files (World.init osOk cfgFull)).1.trace
        = if (osOk.coCreate .openDlg).1 < 0 then 0 else 1) ∧
    (countRelease (osOk.coCreate .openDlg).2
        (invoke_pick_folder (World.init osOk cfgFull)).1.trace
        = if (osOk.coCreate .openDlg).1 < 0 then 0 else 1) ∧
    (countRelease (osOk.coCreate .saveDlg).2
        (invoke_save_file (World.init osOk cfgFull)).1.trace
        = if (osOk.coCreate .saveDlg).1 < 0 then 0 else 1) :=
  C2_handle_released_exactly_once osOk cfgFull (by decide)

/-- C3 counterexample: the claim that every dialog-building operation
translates each configuration field is false for `build_pick_folder`: with a
configuration carrying a filter and a file name (and an all-success oracle),
its trace contains no `SetFileTypes`, no `SetDefaultExtension` and no
`SetFileName` call — only the create and `SetOptions` calls. -/
theorem C3_counterexample :
    cfgFolderCx.filters ≠ [] ∧ cfgFolderCx.file_name ≠ none ∧
    (build_pick_folder (World.init osOk cfgFolderCx)).1.trace =
      [.coCreateInstance .openDlg 0, .setOptions FOS_PICKFOLDERS 0] ∧
    (build_pick_folder (World.init osOk cfgFolderCx)).1.trace.countP
        NCall.isSetFileTypes = 0 ∧
    (build_pick_folder (World.init osOk cfgFolderCx)).1.trace.countP
        NCall.isSetDefaultExt = 0 ∧
    (build_pick_folder (World.init osOk cfgFolderCx)).1.trace.countP
        NCall.isSetFileName = 0 := by
  exact ⟨by decide, by decide, rfl, rfl, rfl, rfl⟩

/-- C3 (amended): when every native call succeeds, `build_pick_file`,
`build_pick_files` and `build_save_file` translate the filters, starting
directory, file name and title fields into the corresponding native
configuration calls in a fixed linear order (create, filters, directory, file
name, title, then the multi-select option for `build_pick_files`);
`build_pick_folder` translates only the starting directory and title (and sets
the folder-picking option); and the parent window field is not translated into
a configuration call but captured in the wrapper and passed to the native
`Show` call. -/
theorem C3_amended_linear_translation (os : OS) (cfg : FileDialog) (h : OSSucceeds os) :
    ((build_pick_file (World.init os cfg)).1.trace =
      .coCreateInstance .openDlg (os.coCreate .openDlg).1 ::
        (expectedFilterCalls os cfg.filters ++
         expectedPathCalls os cfg.starting_directory ++
         expectedFileNameCalls os cfg.file_name ++
         expectedTitleCalls os cfg.title)) ∧
    ((build_pick_file (World.init os cfg)).2 =
      .ok ⟨(os.coCreate .openDlg).2, cfg.parent⟩) ∧
    ((build_pick_files (World.init os cfg)).1.trace =
      .coCreateInstance .openDlg (os.coCreate .openDlg).1 ::
        (expectedFilterCalls os cfg.filters ++
         expectedPathCalls os cfg.starting_directory ++
         expectedFileNameCalls os cfg.file_name ++
         expectedTitleCalls os cfg.title ++
         [.setOptions FOS_ALLOWMULTISELECT (os.hrSetOptions FOS_ALLOWMULTISELECT)])) ∧
    ((build_pick_files (World.init os cfg)).2 =
      .ok ⟨(os.coCreate .openDlg).2, cfg.parent⟩) ∧
    ((build_save_file (World.init os cfg)).1.trace =
      .coCreateInstance .saveDlg (os.coCreate .saveDlg).1 ::
        (expectedFilterCalls os cfg.filters ++
         expectedPathCalls os cfg.starting_directory ++
         expectedFileNameCalls os cfg.file_name ++
         expectedTitleCalls os cfg.title)) ∧
    ((build_save_file (World.init os cfg)).2 =
      .ok ⟨(os.coCreate .saveDlg).2, cfg.parent⟩) ∧
    ((build_pick_folder (World.init os cfg)).1.trace =
      .coCreateInstance .openDlg (os.coCreate .openDlg).1 ::
        (expectedPathCalls os cfg.starting_directory ++
         expectedTitleCalls os cfg.title ++
         [.setOptions FOS_PICKFOLDERS (os.hrSetOptions FOS_PICKFOLDERS)])) ∧
    ((build_pick_folder (World.init os cfg)).2 =
      .ok ⟨(os.coCreate .openDlg).2, cfg.parent⟩) ∧
    (∀ (w : World) (d : IDialog),
      (show_dialog w d).1.trace = w.trace ++ [.showDialog d.parent (w.os.hrShow d.parent)]) := by
  refine ⟨?_, ?_, ?_, ?_, ?_, ?_, ?_, ?_, ?_⟩
  · simp [build_pick_file_eq, build_pick_file_delta_succ os cfg h, World.init]
  · simp [build_pick_file_eq, build_pick_file_result_succ os cfg h, World.init]
  · simp [build_pick_files_eq, build_pick_files_delta_succ os cfg h, World.init]
  · simp [build_pick_files_eq, build_pick_files_result_succ os cfg h, World.init]
  · simp [build_save_file_eq, build_save_file_delta_succ os cfg h, World.init]
  · simp [build_save_file_eq, build_save_file_result_succ os cfg h, World.init]
  · simp [build_pick_folder_eq, build_pick_folder_delta_succ os cfg h, World.init]
  · simp [build_pick_folder_eq, build_pick_folder_result_succ os cfg h, World.init]
  · intro w d
    simp [show_dialog_eq, show_dialog_delta]

/-- C3 witness: the amended statement instantiated on the all-success oracle
and a fully-populated configuration. -/
theorem C3_amended_linear_translation_witness :
    ((build_pick_file (World.init osOk cfgFull)).1.trace =
      .coCreateInstance .openDlg (osOk.coCreate .openDlg).1 ::
        (expectedFilterCalls osOk cfgFull.filters ++
         expectedPathCalls osOk cfgFull.starting_directory ++
         expectedFileNameCalls osOk cfgFull.file_name ++
         expectedTitleCalls osOk cfgFull.title)) ∧
    ((build_pick_file (World.init osOk cfgFull)).2 =
      .ok ⟨(osOk.coCreate .openDlg).2, cfgFull.parent⟩) ∧
    ((build_pick_files (World.init osOk cfgFull)).1.trace =
      .coCreateInstance .openDlg (osOk.coCreate .openDlg).1 ::
        (expectedFilterCalls osOk cfgFull.filters ++
         expectedPathCalls osOk cfgFull.starting_directory ++
         expectedFileNameCalls osOk cfgFull.file_name ++
         expectedTitleCalls osOk cfgFull.title ++
         [.setOptions FOS_ALLOWMULTISELECT (osOk.hrSetOptions FOS_ALLOWMULTISELECT)])) ∧
    ((build_pick_files (World.init osOk cfgFull)).2 =
      .ok ⟨(osOk.coCreate .openDlg).2, cfgFull.parent⟩) ∧
    ((build_save_file (World.init osOk cfgFull)).1.trace =
      .coCreateInstance .saveDlg (osOk.coCreate .saveDlg).1 ::
        (expectedFilterCalls osOk cfgFull.filters ++
         expectedPathCalls osOk cfgFull.starting_directory ++
         expectedFileNameCalls osOk cfgFull.file_name ++
         expectedTitleCalls osOk cfgFull.title)) ∧
    ((build_save_file (World.init osOk cfgFull)).2 =
      .ok ⟨(osOk.coCreate .saveDlg).2, cfgFull.parent⟩) ∧
    ((build_pick_folder (World.init osOk cfgFull)).1.trace =
      .coCreateInstance .openDlg (osOk.coCreate .openDlg).1 ::
        (expectedPathCalls osOk cfgFull.starting_directory ++
         expectedTitleCalls osOk cfgFull.title ++
         [.setOptions FOS_PICKFOLDERS (osOk.hrSetOptions FOS_PICKFOLDERS)])) ∧
    ((build_pick_folder (World.init osOk cfgFull)).2 =
      .ok ⟨(osOk.coCreate .openDlg).2, cfgFull.parent⟩) ∧
    (∀ (w : World) (d : IDialog),
      (show_dialog w d).1.trace = w.trace ++ [.showDialog d.parent (w.os.hrShow d.parent)]) :=
  C3_amended_linear_translation osOk cfgFull osOk_succeeds

/-- C4: `add_filters` registers with the OS exactly one filter specification
per filter, in the order given: the `SetFileTypes` call carries one spec per
filter, the spec of a filter is its name paired with its extensions each
rendered `*.ext` and joined with the separator `;`. -/
theorem C4_filter_spec_format (os : OS) (cfg : FileDialog) (fs : List Filter)
    (h : OSSucceeds os) (hne : fs ≠ []) :
    (add_filters (World.init os cfg) fs).1.trace.filter NCall.isSetFileTypes =
      [.setFileTypes (fs.map filterSpec) (os.hrSetFileTypes (fs.map filterSpec))] ∧
    (fs.map filterSpec).length = fs.length ∧
    (∀ f ∈ fs, filterSpec f = (f.name, specPattern f.extensions)) := by
  refine ⟨?_, by simp, ?_⟩
  · have h1 : (add_filters (World.init os cfg) fs).1.trace = add_filters_delta os fs := by
      simp [add_filters_eq, World.init]
    rw [h1, add_filters_delta_succ os fs h]
    rcases fs with _ | ⟨f, rest⟩
    · exact absurd rfl hne
    · simp [expectedFilterCalls, List.filter_append, filter_sft_defaultExtCalls,
        NCall.isSetFileTypes]
  · intro f hf
    simp [filterSpec, intercalate_specPattern]

/-- C4 witness: concrete instance, including the spec's own example
`"*.jpg;*.png"` rendered from extensions `jpg` and `png`. -/
theorem C4_filter_spec_format_witness :
    ((add_filters (World.init osOk cfgEmpty) cfgFull.filters).1.trace.filter
        NCall.isSetFileTypes =
      [.setFileTypes (cfgFull.filters.map filterSpec)
        (osOk.hrSetFileTypes (cfgFull.filters.map filterSpec))] ∧
     (cfgFull.filters.map filterSpec).length = cfgFull.filters.length ∧
     (∀ f ∈ cfgFull.filters, filterSpec f = (f.name, specPattern f.extensions))) ∧
    filterSpec { name := "Images", extensions := ["jpg", "png"] } =
      ("Images", "*.jpg;*.png") :=
  ⟨C4_filter_spec_format osOk cfgEmpty cfgFull.filters osOk_succeeds (by decide),
   by decide⟩

/-- C5: a configured starting directory is applied by creating a shell item
from the path string and passing it to `SetFolder` (the API documented to take
precedence); `set_path` never calls the weaker `SetDefaultFolder` on any
input. -/
theorem C5_uses_set_folder (os : OS) (cfg : FileDialog) (pb : PathBuf) (s : String)
    (hs : pb.to_str = some s) (hok : ¬(os.shCreateItem s).1 < 0) :
    (set_path (World.init os cfg) (some pb)).1.trace =
      [.shCreateItemFromParsingName s (os.shCreateItem s).1,
       .setFolder (os.shCreateItem s).2 (os.hrSetFolder (os.shCreateItem s).2)] ∧
    (∀ (w : World) (p : Option PathBuf),
      (set_path w p).1.trace.countP NCall.isSetDefaultFolder =
        w.trace.countP NCall.isSetDefaultFolder) := by
  constructor
  · rcases pb with s2 | bs
    · have hs2 : s2 = s := by simpa [PathBuf.to_str] using hs
      subst hs2
      simp [set_path_eq, set_path_delta, World.init, PathBuf.to_str, hok]
    · simp [PathBuf.to_str] at hs
  · intro w p
    rw [set_path_eq]
    simp [List.countP_append, countP_sdf_set_path_delta]

/-- C5 witness: concrete Unicode starting directory on the all-success
oracle. -/
theorem C5_uses_set_folder_witness :
    (set_path (World.init osOk cfgEmpty) (some (.unicode "C:\\start"))).1.trace =
      [.shCreateItemFromParsingName "C:\\start" (osOk.shCreateItem "C:\\start").1,
       .setFolder (osOk.shCreateItem "C:\\start").2
         (osOk.hrSetFolder (osOk.shCreateItem "C:\\start").2)] ∧
    (∀ (w : World) (p : Option PathBuf),
      (set_path w p).1.trace.countP NCall.isSetDefaultFolder =
        w.trace.countP NCall.isSetDefaultFolder) :=
  C5_uses_set_folder osOk cfgEmpty (.unicode "C:\\start") "C:\\start" rfl (by decide)

/-- C6: no operation of the wrapper modifies the caller's configuration: the
configuration component of the world is unchanged by every building,
configuring, showing and collecting operation, on success and on failure (the
operations change only the native-call trace). -/
theorem C6_config_never_modified (w : World) :
    (add_filters w w.config.filters).1.config = w.config ∧
    (set_path w w.config.starting_directory).1.config = w.config ∧
    (set_file_name w w.config.file_name).1.config = w.config ∧
    (set_title w w.config.title).1.config = w.config ∧
    (∀ d : IDialog, (show_dialog w d).1.config = w.config) ∧
    (build_pick_file w).1.config = w.config ∧
    (build_pick_files w).1.config = w.config ∧
    (build_save_file w).1.config = w.config ∧
    (build_pick_folder w).1.config = w.config ∧
    (get_result w).1.config = w.config ∧
    (get_results w).1.config = w.config := by
  refine ⟨?_, ?_, ?_, ?_, ?_, ?_, ?_, ?_, ?_, ?_, ?_⟩ <;>
    simp [add_filters_eq, set_path_eq, set_file_name_eq, set_title_eq, show_dialog_eq,
      build_pick_file_eq, build_pick_files_eq, build_save_file_eq, build_pick_folder_eq,
      get_result_eq, get_results_eq]

/-- C7: in `get_result` and `get_results`, every wide-character buffer
returned by a successful `GetDisplayName` is freed exactly once via
`CoTaskMemFree`, after its allocation and before the operation returns — on
the success path and on every failure path. -/
theorem C7_display_name_buffers_freed (os : OS) (cfg : FileDialog) :
    BuffersFreedOnce (get_result (World.init os cfg)).1.trace ∧
    BuffersFreedOnce (get_results (World.init os cfg)).1.trace := by
  constructor <;>
    simp [BuffersFreedOnce, get_result_eq, get_results_eq, World.init,
      allocFreeRun_get_result_delta, allocFreeRun_get_results_delta]

/-- C8: when every native call succeeds, building a pick-file, pick-files or
save-file dialog sets the dialog's default extension exactly when the filter
list has a first filter with a first extension, to that extension (the
`SetDefaultExtension` calls in the build trace are exactly
`defaultExtCalls`, which is empty when the filter list is empty or the first
filter has no extensions); `build_pick_folder` never sets one. -/
theorem C8_default_extension_from_first_filter (os : OS) (cfg : FileDialog)
    (h : OSSucceeds os) :
    ((build_pick_file (World.init os cfg)).1.trace.filter NCall.isSetDefaultExt =
      defaultExtCalls os cfg.filters) ∧
    ((build_pick_files (World.init os cfg)).1.trace.filter NCall.isSetDefaultExt =
      defaultExtCalls os cfg.filters) ∧
    ((build_save_file (World.init os cfg)).1.trace.filter NCall.isSetDefaultExt =
      defaultExtCalls os cfg.filters) ∧
    ((build_pick_folder (World.init os cfg)).1.trace.filter NCall.isSetDefaultExt = []) := by
  refine ⟨?_, ?_, ?_, ?_⟩
  · simp [build_pick_file_eq, build_pick_file_delta_succ os cfg h, World.init,
      List.filter_append, filter_sde_expectedFilterCalls, filter_sde_expectedPathCalls,
      filter_sde_expectedFileNameCalls, filter_sde_expectedTitleCalls,
      NCall.isSetDefaultExt]
  · simp [build_pick_files_eq, build_pick_files_delta_succ os cfg h, World.init,
      List.filter_append, filter_sde_expectedFilterCalls, filter_sde_expectedPathCalls,
      filter_sde_expectedFileNameCalls, filter_sde_expectedTitleCalls,
      NCall.isSetDefaultExt]
  · simp [build_save_file_eq, build_save_file_delta_succ os cfg h, World.init,
      List.filter_append, filter_sde_expectedFilterCalls, filter_sde_expectedPathCalls,
      filter_sde_expectedFileNameCalls, filter_sde_expectedTitleCalls,
      NCall.isSetDefaultExt]
  · simp [build_pick_folder_eq, build_pick_folder_delta_succ os cfg h, World.init,
      List.filter_append, filter_sde_expectedPathCalls, filter_sde_expectedTitleCalls,
      NCall.isSetDefaultExt]

/-- C8 witness: on the all-success oracle with a populated configuration
(first filter `Images` with first extension `jpg`). -/
theorem C8_default_extension_from_first_filter_witness :
    ((build_pick_file (World.init osOk cfgFull)).1.trace.filter NCall.isSetDefaultExt =
      defaultExtCalls osOk cfgFull.filters) ∧
    ((build_pick_files (World.init osOk cfgFull)).1.trace.filter NCall.isSetDefaultExt =
      defaultExtCalls osOk cfgFull.filters) ∧
    ((build_save_file (World.init osOk cfgFull)).1.trace.filter NCall.isSetDefaultExt =
      defaultExtCalls osOk cfgFull.filters) ∧
    ((build_pick_folder (World.init osOk cfgFull)).1.trace.filter
        NCall.isSetDefaultExt = []) :=
  C8_default_extension_from_first_filter osOk cfgFull osOk_succeeds

/-- C9: when the configured starting directory cannot be represented as valid
Unicode (`to_str` is `none`), and likewise when no starting directory is
configured, `set_path` makes no native call and returns success: the world is
returned unchanged with `Ok`. -/
theorem C9_invalid_unicode_path_ignored (w : World) (p : Option PathBuf)
    (h : p = none ∨ ∃ pb, p = some pb ∧ pb.to_str = none) :
    set_path w p = (w, .ok ()) := by
  rcases h with rfl | ⟨pb, rfl, hpb⟩
  · rfl
  · rcases pb with s | bs
    · simp [PathBuf.to_str] at hpb
    · rfl

/-- C9 witness: a non-Unicode path is silently ignored. -/
theorem C9_invalid_unicode_path_ignored_witness :
    set_path (World.init osOk cfgEmpty) (some (.nonUnicode [55296])) =
      (World.init osOk cfgEmpty, .ok ()) :=
  C9_invalid_unicode_path_ignored _ _ (Or.inr ⟨_, rfl, rfl⟩)

/-- C10: with an empty filter list, `add_filters` makes no native call at all
(neither `SetDefaultExtension` nor `SetFileTypes`) and returns success: the
world — trace included — is returned unchanged with `Ok`. -/
theorem C10_empty_filters_no_calls (w : World) : add_filters w [] = (w, .ok ()) := rfl

end Rfd
